import Mathlib

/-!
Shallow embedding of the OrcaBus platform-integration-tests workers
(`app/service/seeder.py`, `app/service/collector.py`, `app/service/verifier.py`)
and proofs about the claims of the specification.

JSON values are modelled by `JVal`; the DynamoDB table by a list of items,
each item an attribute list; the S3 bucket by an association list from keys
to parsed JSON bodies.  Python dict/list operations used by the code
(`d.get`, truthiness, `or`, `str.startswith`, `str.split`) are translated
one-to-one below.  SHA-256 hashing and wall-clock reads are external
effects; they enter the model as environment fields.  Write failures that
the code guards with try/except carry an injected success flag in the
environment; reads are modelled as succeeding.
-/

namespace OrcaBusIT

/-- A JSON value, as produced by `json.loads` in the Python sources. -/
inductive JVal where
  | null : JVal
  | bool : Bool → JVal
  | num : Int → JVal
  | str : String → JVal
  | arr : List JVal → JVal
  | obj : List (String × JVal) → JVal

mutual

/-- Structural equality of JSON values (Python `==` at the call sites of the
translated code, where compared values are of like JSON types). -/
def JVal.decEq : (a b : JVal) → Decidable (a = b)
  | .null, .null => isTrue rfl
  | .bool a, .bool b =>
    if h : a = b then isTrue (by rw [h]) else isFalse (fun heq => h (JVal.bool.inj heq))
  | .num a, .num b =>
    if h : a = b then isTrue (by rw [h]) else isFalse (fun heq => h (JVal.num.inj heq))
  | .str a, .str b =>
    if h : a = b then isTrue (by rw [h]) else isFalse (fun heq => h (JVal.str.inj heq))
  | .arr a, .arr b =>
    match JVal.decEqList a b with
    | isTrue h => isTrue (by rw [h])
    | isFalse h => isFalse (fun heq => h (JVal.arr.inj heq))
  | .obj a, .obj b =>
    match JVal.decEqFields a b with
    | isTrue h => isTrue (by rw [h])
    | isFalse h => isFalse (fun heq => h (JVal.obj.inj heq))
  | .null, .bool _ => isFalse (fun h => JVal.noConfusion h)
  | .null, .num _ => isFalse (fun h => JVal.noConfusion h)
  | .null, .str _ => isFalse (fun h => JVal.noConfusion h)
  | .null, .arr _ => isFalse (fun h => JVal.noConfusion h)
  | .null, .obj _ => isFalse (fun h => JVal.noConfusion h)
  | .bool _, .null => isFalse (fun h => JVal.noConfusion h)
  | .bool _, .num _ => isFalse (fun h => JVal.noConfusion h)
  | .bool _, .str _ => isFalse (fun h => JVal.noConfusion h)
  | .bool _, .arr _ => isFalse (fun h => JVal.noConfusion h)
  | .bool _, .obj _ => isFalse (fun h => JVal.noConfusion h)
  | .num _, .null => isFalse (fun h => JVal.noConfusion h)
  | .num _, .bool _ => isFalse (fun h => JVal.noConfusion h)
  | .num _, .str _ => isFalse (fun h => JVal.noConfusion h)
  | .num _, .arr _ => isFalse (fun h => JVal.noConfusion h)
  | .num _, .obj _ => isFalse (fun h => JVal.noConfusion h)
  | .str _, .null => isFalse (fun h => JVal.noConfusion h)
  | .str _, .bool _ => isFalse (fun h => JVal.noConfusion h)
  | .str _, .num _ => isFalse (fun h => JVal.noConfusion h)
  | .str _, .arr _ => isFalse (fun h => JVal.noConfusion h)
  | .str _, .obj _ => isFalse (fun h => JVal.noConfusion h)
  | .arr _, .null => isFalse (fun h => JVal.noConfusion h)
  | .arr _, .bool _ => isFalse (fun h => JVal.noConfusion h)
  | .arr _, .num _ => isFalse (fun h => JVal.noConfusion h)
  | .arr _, .str _ => isFalse (fun h => JVal.noConfusion h)
  | .arr _, .obj _ => isFalse (fun h => JVal.noConfusion h)
  | .obj _, .null => isFalse (fun h => JVal.noConfusion h)
  | .obj _, .bool _ => isFalse (fun h => JVal.noConfusion h)
  | .obj _, .num _ => isFalse (fun h => JVal.noConfusion h)
  | .obj _, .str _ => isFalse (fun h => JVal.noConfusion h)
  | .obj _, .arr _ => isFalse (fun h => JVal.noConfusion h)

/-- Decidable equality of JSON arrays. -/
def JVal.decEqList : (a b : List JVal) → Decidable (a = b)
  | [], [] => isTrue rfl
  | [], _ :: _ => isFalse (fun h => List.noConfusion h)
  | _ :: _, [] => isFalse (fun h => List.noConfusion h)
  | x :: xs, y :: ys =>
    match JVal.decEq x y with
    | isFalse h => isFalse (fun heq => h (List.cons.inj heq).1)
    | isTrue h1 =>
      match JVal.decEqList xs ys with
      | isTrue h2 => isTrue (by rw [h1, h2])
      | isFalse h2 => isFalse (fun heq => h2 (List.cons.inj heq).2)

/-- Decidable equality of JSON object field lists. -/
def JVal.decEqFields : (a b : List (String × JVal)) → Decidable (a = b)
  | [], [] => isTrue rfl
  | [], _ :: _ => isFalse (fun h => List.noConfusion h)
  | _ :: _, [] => isFalse (fun h => List.noConfusion h)
  | (k1, v1) :: xs, (k2, v2) :: ys =>
    if hk : k1 = k2 then
      match JVal.decEq v1 v2 with
      | isFalse h => isFalse (fun heq => h (congrArg Prod.snd (List.cons.inj heq).1))
      | isTrue hv =>
        match JVal.decEqFields xs ys with
        | isTrue ht => isTrue (by rw [hk, hv, ht])
        | isFalse h => isFalse (fun heq => h (List.cons.inj heq).2)
    else isFalse (fun heq => hk (congrArg Prod.fst (List.cons.inj heq).1))

end

instance : DecidableEq JVal := JVal.decEq

/-- Python truthiness (`bool(x)`): None, False, 0, "", [] and an empty dict are falsy. -/
def pyTruthy : JVal → Bool
  | .null => false
  | .bool b => b
  | .num n => n != 0
  | .str s => s != ""
  | .arr l => !l.isEmpty
  | .obj l => !l.isEmpty

/-- Python `a or b`. -/
def pyOr (a b : JVal) : JVal := if pyTruthy a then a else b

/-- Python `str(x)` restricted to the cases the code exercises (the values
converted are strings in every call site; the other constructors get the
obvious rendering). -/
def pyStr : JVal → String
  | .str s => s
  | .null => "None"
  | .bool true => "True"
  | .bool false => "False"
  | .num n => toString n
  | .arr _ => "<list>"
  | .obj _ => "<dict>"

/-- Python `d.get(k)`: `None` when the key is absent or the value is not a dict. -/
def jget (v : JVal) (k : String) : JVal :=
  match v with
  | .obj fs => ((fs.find? (fun p => p.1 == k)).map (fun p => p.2)).getD .null
  | _ => .null

/-- Python `d.get(k, default)`. -/
def jgetD (v : JVal) (k : String) (d : JVal) : JVal :=
  match v with
  | .obj fs =>
    match fs.find? (fun p => p.1 == k) with
    | some p => p.2
    | none => d
  | _ => d

/-- Whether a JSON object carries the key (`k in d` / `d[k]` raising KeyError). -/
def jhasKey (v : JVal) (k : String) : Bool :=
  match v with
  | .obj fs => fs.any (fun p => p.1 == k)
  | _ => false

/-- Python `d.setdefault(k, v)`: insert only when the key is absent. -/
def jsetdefault (v : JVal) (k : String) (d : JVal) : JVal :=
  match v with
  | .obj fs => if fs.any (fun p => p.1 == k) then .obj fs else .obj (fs ++ [(k, d)])
  | other => other

/-- Coerce a JSON value to the list it holds (used where the code has
just established the value is a JSON array). -/
def asList : JVal → List JVal
  | .arr l => l
  | _ => []

/-- Coerce a JSON value to the integer it holds (DynamoDB numeric attribute). -/
def asInt : JVal → Int
  | .num n => n
  | _ => 0

/-- Python `s.startswith(p)` / DynamoDB `begins_with`, stated on character
lists so that prefix facts are provable for non-literal strings. -/
def pyStartsWith (s p : String) : Bool := p.data.isPrefixOf s.data

/-- The Python exceptions raised by the translated code. -/
inductive PyErr where
  | clientError (code : String)
  | valueError (msg : String)
  | keyError (key : String)
  | runtimeError (msg : String)
  | attributeError (name : String)
  deriving DecidableEq

/-- One DynamoDB item: its attribute list (attribute names are unique in a
real item; lookups take the first binding). -/
abbrev Item := List (String × JVal)

/-- The DynamoDB table, in sort-key order: a `query` returns items ascending
by `sk`, so the model keeps the list in that order and `put_item` of a fresh
key appends (concrete stores below are built already sorted). -/
abbrev Store := List Item

/-- `item.get(k)`: the attribute value, `None`-as-`null` when absent. -/
def item_get (it : Item) (k : String) : JVal :=
  ((it.find? (fun p => p.1 == k)).map (fun p => p.2)).getD .null

/-- `item.get(k, default)`. -/
def item_getD (it : Item) (k : String) (d : JVal) : JVal :=
  match it.find? (fun p => p.1 == k) with
  | some p => p.2
  | none => d

/-- The partition key attribute of an item. -/
def pkOf (it : Item) : String := pyStr (item_get it "pk")

/-- The sort key attribute of an item. -/
def skOf (it : Item) : String := pyStr (item_get it "sk")

/-- Whether an item has the given composite key. -/
def keyMatch (it : Item) (pk sk : String) : Bool := pkOf it == pk && skOf it == sk

/-- DynamoDB `get_item` on the composite key. -/
def getItem (st : Store) (pk sk : String) : Option Item :=
  st.find? (fun it => keyMatch it pk sk)

/-- `SET name = value` on an item: replace the attribute or append it. -/
def setAttr (it : Item) (k : String) (v : JVal) : Item :=
  if it.any (fun p => p.1 == k) then it.map (fun p => if p.1 == k then (k, v) else p)
  else it ++ [(k, v)]

/-- Several `SET` clauses in one `update_item`. -/
def setAttrs (it : Item) (updates : List (String × JVal)) : Item :=
  updates.foldl (fun acc p => setAttr acc p.1 p.2) it

/-- DynamoDB `update_item`: every call in this code targets a key read from
the table, so the model transforms the items bearing the key in place. -/
def updateItem (st : Store) (pk sk : String) (f : Item → Item) : Store :=
  st.map (fun it => if keyMatch it pk sk then f it else it)

/-- DynamoDB `put_item`: replace the item at the same key, else append. -/
def putItem (st : Store) (newIt : Item) : Store :=
  if st.any (fun it => keyMatch it (pkOf newIt) (skOf newIt)) then
    st.map (fun it => if keyMatch it (pkOf newIt) (skOf newIt) then newIt else it)
  else st ++ [newIt]

/-- DynamoDB `query` with `pk = :pk and begins_with(sk, :pref)`. -/
def query_begins_with (st : Store) (pk skPref : String) : Store :=
  st.filter (fun it => pkOf it == pk && pyStartsWith (skOf it) skPref)

/-- The S3 bucket: object keys mapped to their parsed JSON bodies. -/
abbrev Bucket := List (String × JVal)

/-- `s3.get_object` followed by `json.loads`. -/
def s3_get (bucket : Bucket) (key : String) : Option JVal :=
  ((bucket.find? (fun p => p.1 == key)).map (fun p => p.2))

/-- Python 3-digit zero-padded decimal rendering for a natural number. -/
def pad3 (n : Nat) : String :=
  if n < 10 then "00" ++ toString n
  else if n < 100 then "0" ++ toString n
  else toString n

namespace Seeder

/-- `app/service/seeder.py` has `from datetime import datetime, timedelta`,
binding `datetime` to the class `datetime.datetime`.  These are the names
resolvable as attributes on that class; `timezone` is a member of the
`datetime` module, which the seeder never imports, so it is absent. -/
def datetime_class_attrs : List String :=
  ["min", "max", "resolution", "year", "month", "day", "hour", "minute",
   "second", "microsecond", "tzinfo", "fold", "today", "now", "utcnow",
   "fromtimestamp", "utcfromtimestamp", "fromordinal", "combine",
   "fromisoformat", "fromisocalendar", "strptime", "date", "time", "timetz",
   "replace", "astimezone", "utcoffset", "dst", "tzname", "timetuple",
   "utctimetuple", "toordinal", "timestamp", "weekday", "isoweekday",
   "isocalendar", "isoformat", "ctime", "strftime"]

/-- Python attribute access `datetime.<name>` on the imported class:
an `AttributeError` when the name is not defined on the class. -/
def datetime_class_attr (name : String) : Except PyErr Unit :=
  if datetime_class_attrs.contains name then .ok () else .error (.attributeError name)

/-- `_now_iso`: evaluates `datetime.now(tz=datetime.timezone.utc)`, so the
attribute access `datetime.timezone` is resolved first; `clock_iso` is what
the call would return if that resolution succeeded. -/
def now_iso (clock_iso : String) : Except PyErr String :=
  match datetime_class_attr "timezone" with
  | .error e => .error e
  | .ok _ => .ok clock_iso

/-- `_resolve_service_name`. -/
def resolve_service_name (raw : JVal) : String :=
  if raw = .null || (pyStr raw).toLower == "all" then "all"
  else (pyStr raw).toLower

/-- `_s3_keys_for_service`: `(events_key, expectations_key)`. -/
def s3_keys_for_service (service_name : String) : String × String :=
  ("seed/services/" ++ service_name ++ "/events.json",
   "seed/services/" ++ service_name ++ "/expectations.json")

/-- `_load_s3_json_list`: missing object raises `ClientError` with code
`NoSuchKey`; a non-array body raises `ValueError`. -/
def load_s3_json_list (bucket : Bucket) (key : String) : Except PyErr (List JVal) :=
  match s3_get bucket key with
  | none => .error (.clientError "NoSuchKey")
  | some (.arr l) => .ok l
  | some _ => .error (.valueError ("Seed file " ++ key ++ " must contain a JSON array"))

/-- The two loads of `_load_service_seed_definitions` for one service name. -/
def load_seed_pair (bucket : Bucket) (service_name : String) :
    Except PyErr (List JVal × List JVal) :=
  match load_s3_json_list bucket (s3_keys_for_service service_name).1 with
  | .error e => .error e
  | .ok events =>
    match load_s3_json_list bucket (s3_keys_for_service service_name).2 with
    | .error e => .error e
    | .ok expectations => .ok (events, expectations)

/-- `_load_service_seed_definitions`: fall back to `"all"` only on a
`ClientError` whose code is `NoSuchKey` or `NoSuchBucket`. -/
def load_service_seed_definitions (bucket : Bucket) (requested : String) :
    Except PyErr (List JVal × List JVal × String) :=
  match load_seed_pair bucket requested with
  | .ok (events, expectations) => .ok (events, expectations, requested)
  | .error (.clientError code) =>
    if code = "NoSuchKey" || code = "NoSuchBucket" then
      match load_seed_pair bucket "all" with
      | .ok (events, expectations) => .ok (events, expectations, "all")
      | .error e => .error e
    else .error (.clientError code)
  | .error e => .error e

/-- One side effect of `_publish_test_events`: a `put_events` entry or a
`time.sleep`. -/
inductive PubAction where
  | publish (source detail_type detail : JVal)
  | sleep (seconds : Nat)
  deriving DecidableEq

/-- The three `detail.setdefault` tracing insertions. -/
def inject_tracing (detail : JVal) (test_run_id service_name : String) : JVal :=
  jsetdefault
    (jsetdefault (jsetdefault detail "testRunId" (.str test_run_id))
      "serviceName" (.str service_name))
    "testMode" (.bool true)

/-- The loop body of `_publish_test_events`: publish each definition in
order; `fail_at` injects `FailedEntryCount > 0` on that call index (fatal
`RuntimeError`); sleep 10 seconds when more events remain. -/
def publish_events_loop (fail_at : Option Nat) (test_run_id service_name : String) :
    Nat → List JVal → List PubAction × Except PyErr Nat
  | _, [] => ([], .ok 0)
  | idx, ev :: rest =>
    if jhasKey ev "Source" = false then ([], .error (.keyError "Source"))
    else if jhasKey ev "DetailType" = false then ([], .error (.keyError "DetailType"))
    else
      let detail := inject_tracing (jgetD ev "Detail" (.obj [])) test_run_id service_name
      let act := PubAction.publish (jget ev "Source") (jget ev "DetailType") detail
      if fail_at = some idx then
        ([act], .error (.runtimeError "One or more events failed to publish"))
      else
        let sleeps : List PubAction := if rest.isEmpty then [] else [.sleep 10]
        let r := publish_events_loop fail_at test_run_id service_name (idx + 1) rest
        (act :: (sleeps ++ r.1), r.2.map (· + 1))

/-- `_publish_test_events` (the empty-list early return coincides with the
loop base case). -/
def publish_test_events (fail_at : Option Nat) (test_run_id service_name : String)
    (events_definitions : List JVal) : List PubAction × Except PyErr Nat :=
  publish_events_loop fail_at test_run_id service_name 0 events_definitions

/-- The batch loop of `_write_expectations`: `enumerate(expectations, start=1)`;
the id attribute of the expectation, else the 3-digit padded index. -/
def write_expectations_loop (test_run_id service_name : String) :
    Store → Nat → List JVal → Store × Nat
  | st, _, [] => (st, 0)
  | st, idx, exp :: rest =>
    let exp_id := pyStr (pyOr (jget exp "id") (.str (pad3 idx)))
    let item : Item :=
      [("pk", .str ("run#" ++ test_run_id)),
       ("sk", .str ("expectation#" ++ exp_id)),
       ("testRunId", .str test_run_id),
       ("serviceName", .str service_name),
       ("expected", exp)]
    let r := write_expectations_loop test_run_id service_name (putItem st item) (idx + 1) rest
    (r.1, r.2 + 1)

/-- `_write_expectations`. -/
def write_expectations (st : Store) (test_run_id service_name : String)
    (expectations : List JVal) : Store × Nat :=
  write_expectations_loop test_run_id service_name st 1 expectations

/-- The environment of the seeder: table, bucket, injected publish failure,
the generated UUID suffix, and the strings a working clock would produce. -/
structure Env where
  store : Store
  bucket : Bucket
  fail_at : Option Nat
  uuid : String
  clock_iso : String
  clock_plus_15min_iso : String

/-- Everything one seeder invocation did: final table state, bus traffic,
and the returned value or the exception that escaped. -/
structure Outcome where
  store : Store
  pub_actions : List PubAction
  result : Except PyErr JVal

/-- `handler` of `app/service/seeder.py`. -/
def handler (env : Env) (event : JVal) : Outcome :=
  let test_run_id := "it-" ++ env.uuid
  let requested := resolve_service_name (jget event "serviceName")
  match load_service_seed_definitions env.bucket requested with
  | .error e => { store := env.store, pub_actions := [], result := .error e }
  | .ok (events_defs, expectation_defs, effective) =>
    let pr := publish_test_events env.fail_at test_run_id effective events_defs
    let acts := pr.1
    match pr.2 with
    | .error e => { store := env.store, pub_actions := acts, result := .error e }
    | .ok _published =>
      let wr := write_expectations env.store test_run_id effective expectation_defs
      let st1 := wr.1
      let expectations_count := wr.2
      match datetime_class_attr "timezone" with
      | .error e => { store := st1, pub_actions := acts, result := .error e }
      | .ok _ =>
        match now_iso env.clock_iso with
        | .error e => { store := st1, pub_actions := acts, result := .error e }
        | .ok started_at =>
          let timeout_at := env.clock_plus_15min_iso
          let meta : Item :=
            [("pk", .str ("run#" ++ test_run_id)),
             ("sk", .str "run#meta"),
             ("runId", .str test_run_id),
             ("serviceName", .str effective),
             ("expectedSlots", .num expectations_count),
             ("observedCount", .num 0),
             ("status", .str "running"),
             ("startedAt", .str started_at),
             ("timeoutAt", .str timeout_at)]
          { store := putItem st1 meta,
            pub_actions := acts,
            result := .ok (.obj
              [("testRunId", .str test_run_id),
               ("serviceName", .str effective),
               ("expectedSlots", .num expectations_count),
               ("startedAt", .str started_at),
               ("timeoutAt", .str timeout_at)]) }

end Seeder

namespace Collector

/-- The environment of the collector: table state, success flags for the three
guarded writes (S3 `put_object`, the expectation `update_item`, the counter
`update_item`), the clock strings, and the SHA-256 function (external). -/
structure Env where
  store : Store
  s3_put_ok : Bool
  update_ok : Bool
  inc_ok : Bool
  now_iso : String
  date_yyyy : String
  date_mm : String
  date_dd : String
  date_ts : String
  hash : JVal → String

/-- `_store_event_payload`: the S3 key on success, `""` when the guarded
`put_object` fails. -/
def store_event_payload (env : Env) (test_run_id event_id : String) : String :=
  let key := "events/testruns/" ++ test_run_id ++ "/" ++ env.date_yyyy ++ "/" ++
    env.date_mm ++ "/" ++ env.date_dd ++ "/" ++ env.date_ts ++ "-" ++ event_id ++ ".json"
  if env.s3_put_ok then key else ""

/-- `_get_run_meta`. -/
def get_run_meta (st : Store) (test_run_id : String) : Option Item :=
  getItem st ("run#" ++ test_run_id) "run#meta"

/-- The loop of `_find_expectation_for_event`: return the first
detail-type match with no observed events; otherwise remember the first
detail-type match. -/
def find_exp_loop (detail_type : JVal) : List Item → Option Item → Option Item
  | [], chosen => chosen
  | it :: rest, chosen =>
    let expected := pyOr (item_getD it "expected" (.obj [])) (.obj [])
    if (jget expected "detailType" == detail_type) = false then
      find_exp_loop detail_type rest chosen
    else if pyTruthy (pyOr (item_get it "observedEvents") (.arr [])) = false then
      some it
    else
      match chosen with
      | none => find_exp_loop detail_type rest (some it)
      | some c => find_exp_loop detail_type rest (some c)

/-- `_find_expectation_for_event` (the query fetches `expectation#` items). -/
def find_expectation_for_event (st : Store) (test_run_id : String)
    (detail_type : JVal) : Option Item :=
  find_exp_loop detail_type
    (query_begins_with st ("run#" ++ test_run_id) "expectation#") none

/-- The `update_item` transform appending to `observedEvents`
(`list_append(if_not_exists(observedEvents, :empty), :new)`). -/
def append_observed (new_observed : JVal) (it : Item) : Item :=
  setAttr it "observedEvents" (.arr (asList (item_getD it "observedEvents" (.arr [])) ++ [new_observed]))

/-- The `update_item` transform incrementing the run counter
(`SET observedCount = if_not_exists(observedCount, :zero) + :one`). -/
def increment_observed_count (it : Item) : Item :=
  setAttr it "observedCount" (.num (asInt (item_getD it "observedCount" (.num 0)) + 1))

/-- `detail = event.get("detail") or handler-default`. -/
def detail_of (event : JVal) : JVal := pyOr (jget event "detail") (.obj [])

/-- `test_run_id = detail.get("testRunId")`. -/
def test_run_id_of (event : JVal) : JVal := jget (detail_of event) "testRunId"

/-- The `new_observed` record the handler appends. -/
def new_observed (env : Env) (event : JVal) : JVal :=
  let rid := pyStr (test_run_id_of event)
  let event_id := pyStr (jgetD event "id" (.str ""))
  let s3_key := store_event_payload env rid event_id
  .obj
    [("eventId", .str event_id),
     ("detailType", jgetD event "detail-type" (.str "")),
     ("receivedAt", .str env.now_iso),
     ("payloadHash", pyOr (.str (env.hash (detail_of event))) .null),
     ("rawS3Key", pyOr (.str s3_key) .null),
     ("matchReason", .str "detailType")]

/-- `handler` of `app/service/collector.py`.  Every raise-prone call is
wrapped in try/except in the source, so the handler itself never raises on
the modelled paths; the `Except` layer records that. -/
def handler (env : Env) (event : JVal) : Except PyErr (Store × JVal) :=
  let detail := detail_of event
  let test_run_id := test_run_id_of event
  if pyTruthy test_run_id = false then
    .ok (env.store, .obj [("ignored", .bool true), ("reason", .str "no_testRunId")])
  else if pyTruthy (jgetD detail "testMode" (.bool false)) = false then
    .ok (env.store, .obj [("ignored", .bool true), ("reason", .str "testMode_not_true"),
      ("testRunId", test_run_id)])
  else
    let rid := pyStr test_run_id
    match get_run_meta env.store rid with
    | none =>
      .ok (env.store, .obj [("ignored", .bool true), ("reason", .str "no_run_meta"),
        ("testRunId", test_run_id)])
    | some _meta =>
      let event_id := pyStr (jgetD event "id" (.str ""))
      let detail_type := jgetD event "detail-type" (.str "")
      let _s3_key := store_event_payload env rid event_id
      let _payload_hash := env.hash detail
      match find_expectation_for_event env.store rid detail_type with
      | none =>
        .ok (env.store, .obj [("testRunId", test_run_id), ("attached", .bool false),
          ("reason", .str "no_matching_expectation")])
      | some expectation_item =>
        let epk := pyStr (item_get expectation_item "pk")
        let esk := pyStr (item_get expectation_item "sk")
        let observed_events := asList (item_getD expectation_item "observedEvents" (.arr []))
        let is_first_for_expectation := observed_events.isEmpty
        if env.update_ok = false then
          .ok (env.store, .obj [("testRunId", test_run_id), ("attached", .bool false),
            ("error", .str "update_item failed")])
        else
          let st1 := updateItem env.store epk esk (append_observed (new_observed env event))
          let st2 :=
            if is_first_for_expectation then
              if env.inc_ok then
                updateItem st1 ("run#" ++ rid) "run#meta" increment_observed_count
              else st1
            else st1
          .ok (st2, .obj
            [("testRunId", test_run_id),
             ("expectationKey", .obj [("pk", .str epk), ("sk", .str esk)]),
             ("attached", .bool true)])

end Collector

namespace Verifier

/-- The environment of the verifier.  `verifier.py` has
`from datetime import datetime, timezone`, so its clock works; `now_iso` is
the stamp `_now_iso` returns.  Timestamps are modelled as integers under an
abstract ISO-8601 parse `parse_iso` (`_parse_iso` returns a `datetime` or
`None`; datetimes form a linear order), and `now` is the current instant. -/
structure Env where
  store : Store
  bucket : Bucket
  now_iso : String
  now : Int
  parse_iso : String → Option Int

/-- `_get_run_meta`. -/
def get_run_meta (st : Store) (test_run_id : String) : Option Item :=
  getItem st ("run#" ++ test_run_id) "run#meta"

/-- `_load_s3_json_list` of `verifier.py` (same behaviour as in the seeder). -/
def load_s3_json_list (bucket : Bucket) (key : String) : Except PyErr (List JVal) :=
  match s3_get bucket key with
  | none => .error (.clientError "NoSuchKey")
  | some (.arr l) => .ok l
  | some _ => .error (.valueError ("Seed file " ++ key ++ " must contain a JSON array"))

/-- `_get_observed_events`: `event#` range query filtered on `detailType`
and `source`. -/
def get_observed_events (st : Store) (test_run_id : String)
    (detail_type source : JVal) : List Item :=
  (query_begins_with st ("run#" ++ test_run_id) "event#").filter
    (fun it => item_get it "detailType" == detail_type && item_get it "source" == source)

/-- `_download_event_from_s3`: any failure is caught and yields `None`. -/
def download_event_from_s3 (bucket : Bucket) (key : String) : Option JVal :=
  s3_get bucket key

/-- `_get_nested_value` after `path.split(".")`. -/
def get_nested_value (v : JVal) : List String → JVal
  | [] => v
  | p :: rest =>
    match v with
    | .obj fs =>
      let nv := jget (.obj fs) p
      if nv = .null then .null else get_nested_value nv rest
    | _ => .null

/-- `_match_event`: every match field must compare equal. -/
def match_event (expected observed_body : JVal) (match_fields : List String) : Bool :=
  match_fields.all (fun fp =>
    get_nested_value expected (fp.splitOn ".") == get_nested_value observed_body (fp.splitOn "."))

/-- The per-candidate acceptance test of `_find_matching_event`: a truthy
`rawS3Key`, a downloadable truthy body, agreeing detail-type and source,
and all match fields equal (each `continue` of the loop is a `false`). -/
def is_matching_candidate (bucket : Bucket) (expected : JVal)
    (match_fields : List String) (event_meta : Item) : Bool :=
  let s3_key := item_get event_meta "rawS3Key"
  if pyTruthy s3_key = false then false
  else
    match download_event_from_s3 bucket (pyStr s3_key) with
    | none => false
    | some event_body =>
      if pyTruthy event_body = false then false
      else if (jget event_body "detail-type" == jget expected "detail-type" &&
          jget event_body "source" == jget expected "source") = false then false
      else match_event expected event_body match_fields

/-- `_find_matching_event`: first candidate, in sort-key (arrival) order,
accepted by the per-candidate test. -/
def find_matching_event (bucket : Bucket) (expected : JVal)
    (match_fields : List String) (observed_events : List Item) : Option Item :=
  observed_events.find? (is_matching_candidate bucket expected match_fields)

/-- Expected count in status mode: load failures are swallowed, leaving 0. -/
def expected_count_of (bucket : Bucket) (service_name : JVal) : Nat :=
  match load_s3_json_list bucket
      ("seed/services/" ++ pyStr service_name ++ "/expectations.json") with
  | .ok l => l.length
  | .error _ => 0

/-- Observed count in status mode: size of the `event#` range query. -/
def observed_count_of (st : Store) (test_run_id : String) : Nat :=
  (query_begins_with st ("run#" ++ test_run_id) "event#").length

/-- Lines 229-232 of `_status_mode`: the timeout condition — a truthy
`timeoutAt` that parses and has been reached. -/
def timeout_hit (env : Env) (meta : Item) : Bool :=
  if pyTruthy (item_get meta "timeoutAt") then
    match env.parse_iso (pyStr (item_get meta "timeoutAt")) with
    | some timeout_at => decide (timeout_at ≤ env.now)
    | none => false
  else false

/-- `_status_mode`: the timeout branch is decided before the ready branch. -/
def status_mode (env : Env) (test_run_id : JVal) : Store × JVal :=
  let rid := pyStr test_run_id
  match get_run_meta env.store rid with
  | none => (env.store, .obj [("status", .str "unknown"), ("runId", test_run_id)])
  | some meta =>
    let service_name := item_getD meta "serviceName" (.str "all")
    let expected_count := expected_count_of env.bucket service_name
    let observed_count := observed_count_of env.store rid
    let current_status := item_getD meta "status" (.str "running")
    if timeout_hit env meta then
      let st' :=
        if current_status = .str "timeout" then env.store
        else updateItem env.store (pkOf meta) (skOf meta)
          (fun it => setAttr it "status" (.str "timeout"))
      (st', .obj [("status", .str "timeout"), ("runId", test_run_id),
        ("observedCount", .num observed_count), ("expectedCount", .num expected_count)])
    else if expected_count ≤ observed_count ∧ 0 < expected_count then
      let st' :=
        if current_status = .str "ready" then env.store
        else updateItem env.store (pkOf meta) (skOf meta)
          (fun it => setAttr it "status" (.str "ready"))
      (st', .obj [("status", .str "ready"), ("runId", test_run_id),
        ("observedCount", .num observed_count), ("expectedCount", .num expected_count)])
    else
      (env.store, .obj [("status", .str "running"), ("runId", test_run_id),
        ("observedCount", .num observed_count), ("expectedCount", .num expected_count)])

/-- What one expectation index produced in verify mode. -/
inductive StepOut where
  | skipped
  | matched (pk sk : String)
  | missed
  deriving DecidableEq

/-- Sort key of the missing record for expectation index `idx`. -/
def missing_sk (idx : Nat) : String := "expectation#" ++ pad3 idx ++ "-missing"

/-- The missing-record item written for an unmatched expectation. -/
def missing_item (test_run_id : String) (detail_type source expected : JVal)
    (verifier_at : String) (idx : Nat) : Item :=
  [("pk", .str ("run#" ++ test_run_id)),
   ("sk", .str (missing_sk idx)),
   ("testRunId", .str test_run_id),
   ("detailType", detail_type),
   ("source", source),
   ("expectedEvent", expected),
   ("status", .str "missed"),
   ("verifierAt", .str verifier_at),
   ("expectedOrder", .num idx)]

/-- The `update_item` transform for a matched observation. -/
def matched_update (verifier_at : String) (idx : Nat) (expected : JVal) (it : Item) : Item :=
  setAttrs it [("status", .str "matched"), ("verifierAt", .str verifier_at),
    ("expectedOrder", .num idx), ("expectedEvent", expected)]

/-- The expectation loop of `_verify_mode`, threading the table state the
way the repeated queries of the code observe it. -/
def verify_loop (bucket : Bucket) (rid verifier_at : String) :
    Store → Nat → List JVal → Store × List StepOut
  | st, _, [] => (st, [])
  | st, idx, expected :: rest =>
    let detail_type := jget expected "detail-type"
    let source := jget expected "source"
    if pyTruthy detail_type = false ∨ pyTruthy source = false then
      let r := verify_loop bucket rid verifier_at st (idx + 1) rest
      (r.1, .skipped :: r.2)
    else
      let observed_events := get_observed_events st rid detail_type source
      let match_fields :=
        (asList (jgetD (jgetD expected "__match" (.obj [])) "fields" (.arr []))).map pyStr
      match find_matching_event bucket expected match_fields observed_events with
      | some matched_event =>
        let st1 := updateItem st (pkOf matched_event) (skOf matched_event)
          (matched_update verifier_at idx expected)
        let r := verify_loop bucket rid verifier_at st1 (idx + 1) rest
        (r.1, .matched (pkOf matched_event) (skOf matched_event) :: r.2)
      | none =>
        let st1 := putItem st (missing_item rid detail_type source expected verifier_at idx)
        let r := verify_loop bucket rid verifier_at st1 (idx + 1) rest
        (r.1, .missed :: r.2)

/-- The `matched_event_keys` list accumulated by the loop. -/
def matched_keys (outs : List StepOut) : List (String × String) :=
  outs.filterMap (fun o => match o with | .matched p s => some (p, s) | _ => none)

/-- `matched_count` of the loop. -/
def count_matched (outs : List StepOut) : Nat :=
  outs.countP (fun o => match o with | .matched _ _ => true | _ => false)

/-- `missing_count` of the loop. -/
def count_missed (outs : List StepOut) : Nat :=
  outs.countP (fun o => match o with | .missed => true | _ => false)

/-- The `update_item` transform for an unexpected observation. -/
def unexpected_update (verifier_at : String) (it : Item) : Item :=
  setAttrs it [("status", .str "unexpected"), ("verifierAt", .str verifier_at)]

/-- The iteration of the unexpected-event pass over the pre-scan query
result: every item whose key was not matched is marked `unexpected`. -/
def mark_unexpected_loop (verifier_at : String) (keys : List (String × String)) :
    List Item → Store → Store × Nat
  | [], st => (st, 0)
  | it :: rest, st =>
    if (pkOf it, skOf it) ∈ keys then mark_unexpected_loop verifier_at keys rest st
    else
      let st1 := updateItem st (pkOf it) (skOf it) (unexpected_update verifier_at)
      let r := mark_unexpected_loop verifier_at keys rest st1
      (r.1, r.2 + 1)

/-- The unexpected-event pass: one `event#` query, then the marking loop. -/
def unexpected_scan (rid verifier_at : String) (keys : List (String × String))
    (st : Store) : Store × Nat :=
  mark_unexpected_loop verifier_at keys (query_begins_with st ("run#" ++ rid) "event#") st

/-- The JSON object `_verify_mode` returns. -/
def verify_result (test_run_id : JVal) (run_status : String)
    (matched_count missing_count unexpected_count total_expected : Nat) : JVal :=
  .obj
    [("runId", test_run_id),
     ("runStatus", .str run_status),
     ("matchedCount", .num matched_count),
     ("missingCount", .num missing_count),
     ("unexpectedCount", .num unexpected_count),
     ("totalExpected", .num total_expected)]

/-- `_verify_mode`. -/
def verify_mode (env : Env) (test_run_id : JVal) : Except PyErr (Store × JVal) :=
  let rid := pyStr test_run_id
  match get_run_meta env.store rid with
  | none => .error (.valueError ("No run meta found for testRunId=" ++ rid))
  | some meta =>
    let service_name := item_getD meta "serviceName" (.str "all")
    let expectations_key := "seed/services/" ++ pyStr service_name ++ "/expectations.json"
    match load_s3_json_list env.bucket expectations_key with
    | .error _ => .error (.valueError "Failed to load expectations from S3")
    | .ok expectations =>
      let verifier_at := env.now_iso
      let lr := verify_loop env.bucket rid verifier_at env.store 0 expectations
      let outs := lr.2
      let matched_count := count_matched outs
      let missing_count := count_missed outs
      let ur := unexpected_scan rid verifier_at (matched_keys outs) lr.1
      let st2 := ur.1
      let unexpected_count := ur.2
      let current_status := item_getD meta "status" (.str "running")
      let run_status :=
        if current_status = .str "timeout" then "failed"
        else if 0 < missing_count ∨ 0 < unexpected_count then "failed"
        else "passed"
      let st3 := updateItem st2 (pkOf meta) (skOf meta)
        (fun it => setAttrs it [("status", .str run_status), ("verifiedAt", .str verifier_at)])
      .ok (st3, verify_result test_run_id run_status matched_count missing_count
        unexpected_count expectations.length)

/-- The run-id fallback chain of the handler. -/
def resolve_run_id (event : JVal) : JVal :=
  pyOr
    (pyOr (pyOr (jget event "runId") (jget event "testRunId"))
      (jget (pyOr (jget event "seedResult") (.obj [])) "runId"))
    (jget (pyOr (jget event "seedResult") (.obj [])) "testRunId")

/-- `handler` of `app/service/verifier.py`:
`mode = event.get("mode") or "verify"`; only `mode == "status"` selects the
status path. -/
def handler (env : Env) (event : JVal) : Except PyErr (Store × JVal) :=
  let mode := pyOr (jget event "mode") (.str "verify")
  let test_run_id := resolve_run_id event
  if pyTruthy test_run_id = false then
    .error (.valueError "runId or testRunId is required for verifier")
  else if mode = .str "status" then .ok (status_mode env test_run_id)
  else verify_mode env test_run_id

end Verifier

/-! ### Concrete fixtures used by the claims -/

/-- Run-internal key uniqueness of a store (DynamoDB guarantees it). -/
def uniqueKeysB : Store → Bool
  | [] => true
  | it :: rest =>
    rest.all (fun b => !(keyMatch b (pkOf it) (skOf it))) && uniqueKeysB rest

/-- A missing record with the given verify stamp sits at key `(p, s)`. -/
def missedAt (st : Store) (p s vat : String) : Prop :=
  ∃ m, getItem st p s = some m ∧ item_get m "status" = .str "missed" ∧
    item_get m "verifierAt" = .str vat

/-- A well-formed expectation has a truthy detail-type and source. -/
def expectation_wf (e : JVal) : Bool :=
  pyTruthy (jget e "detail-type") && pyTruthy (jget e "source")

/-- The bus entry the seeder builds for one scenario event definition. -/
def pub_entry (test_run_id service_name : String) (ev : JVal) : Seeder.PubAction :=
  .publish (jget ev "Source") (jget ev "DetailType")
    (Seeder.inject_tracing (jgetD ev "Detail" (.obj [])) test_run_id service_name)

/-- Whether a publish-loop side effect is a `put_events` call. -/
def is_publish : Seeder.PubAction → Bool
  | .publish _ _ _ => true
  | .sleep _ => false

/-- Scenario with two event definitions, used against the seeder. -/
def c8_events : List JVal :=
  [.obj [("Source", .str "svc.a"), ("DetailType", .str "Started"), ("Detail", .obj [])],
   .obj [("Source", .str "svc.a"), ("DetailType", .str "Completed"), ("Detail", .obj [])]]

/-- A verifier environment with an empty table and bucket. -/
def c10_env : Verifier.Env :=
  { store := [], bucket := [], now_iso := "2026-10-12T00:20:00Z", now := 0,
    parse_iso := fun _ => none }

/-- Verifier input carrying a runId and no mode field. -/
def c10_event : JVal := .obj [("runId", .str "r1")]

/-- Scenario files for the seeder run. -/
def c2_bucket : Bucket :=
  [("seed/services/all/events.json",
    .arr [.obj [("Source", .str "svc.a"), ("DetailType", .str "Started"),
      ("Detail", .obj [("jobId", .str "J1")])]]),
   ("seed/services/all/expectations.json",
    .arr [.obj [("source", .str "svc.a"), ("detail-type", .str "Started")]])]

/-- A seeder environment over those scenario files. -/
def c2_env : Seeder.Env :=
  { store := [], bucket := c2_bucket, fail_at := none, uuid := "00000000",
    clock_iso := "2026-10-12T00:00:00Z",
    clock_plus_15min_iso := "2026-10-12T00:15:00Z" }

/-- RunMeta row for run `r1`. -/
def c5_meta : Item :=
  [("pk", .str "run#r1"), ("sk", .str "run#meta"), ("runId", .str "r1"),
   ("serviceName", .str "all"), ("observedCount", .num 0), ("status", .str "running")]

/-- Expectation item for run `r1`. -/
def c5_exp : Item :=
  [("pk", .str "run#r1"), ("sk", .str "expectation#001"),
   ("expected", .obj [("detailType", .str "Started")])]

/-- Collector environment whose table holds run `r1`. -/
def c5_env : Collector.Env :=
  { store := [c5_exp, c5_meta], s3_put_ok := true, update_ok := true, inc_ok := true,
    now_iso := "2026-10-12T00:01:00Z", date_yyyy := "2026", date_mm := "10",
    date_dd := "12", date_ts := "2026-10-12T00-01-00Z", hash := fun _ => "h" }

/-- An envelope with a `testRunId` for the existing run but no `testMode`. -/
def c5_event : JVal :=
  .obj [("id", .str "e1"), ("source", .str "svc.a"), ("detail-type", .str "Started"),
    ("detail", .obj [("testRunId", .str "r1")])]

/-- RunMeta for run `r1`, still running, with a parseable timeout stamp. -/
def c6_meta : Item :=
  [("pk", .str "run#r1"), ("sk", .str "run#meta"), ("serviceName", .str "all"),
   ("status", .str "running"), ("timeoutAt", .str "2026-10-12T00:15:00Z")]

/-- One observed event row for run `r1`. -/
def c6_event_item : Item :=
  [("pk", .str "run#r1"), ("sk", .str "event#0001-e1"),
   ("detailType", .str "Started"), ("source", .str "svc.a")]

/-- Verifier environment at the exact instant the run both times out and
has all its expected events observed. -/
def c6_env : Verifier.Env :=
  { store := [c6_event_item, c6_meta],
    bucket := [("seed/services/all/expectations.json",
      .arr [.obj [("source", .str "svc.a"), ("detail-type", .str "Started")]])],
    now_iso := "2026-10-12T00:15:00Z", now := 900,
    parse_iso := fun s => if s = "2026-10-12T00:15:00Z" then some 900 else none }

/-- RunMeta for run `r1` (C9 environments). -/
def c9_meta : Item :=
  [("pk", .str "run#r1"), ("sk", .str "run#meta"), ("runId", .str "r1"),
   ("serviceName", .str "all"), ("observedCount", .num 0), ("status", .str "running")]

/-- Expectation item for run `r1` (C9 environments). -/
def c9_exp : Item :=
  [("pk", .str "run#r1"), ("sk", .str "expectation#001"),
   ("expected", .obj [("detailType", .str "Started")])]

/-- Collector environment whose expectation `update_item` fails. -/
def c9_env : Collector.Env :=
  { store := [c9_exp, c9_meta], s3_put_ok := true, update_ok := false, inc_ok := true,
    now_iso := "2026-10-12T00:01:00Z", date_yyyy := "2026", date_mm := "10",
    date_dd := "12", date_ts := "2026-10-12T00-01-00Z", hash := fun _ => "h" }

/-- Collector environment whose S3 archive write fails but whose table
writes succeed. -/
def c9_env_s3fail : Collector.Env :=
  { store := [c9_exp, c9_meta], s3_put_ok := false, update_ok := true, inc_ok := true,
    now_iso := "2026-10-12T00:01:00Z", date_yyyy := "2026", date_mm := "10",
    date_dd := "12", date_ts := "2026-10-12T00-01-00Z", hash := fun _ => "h" }

/-- A test envelope for run `r1`. -/
def c9_event : JVal :=
  .obj [("id", .str "e1"), ("source", .str "svc.a"), ("detail-type", .str "Started"),
    ("detail", .obj [("testRunId", .str "r1"), ("testMode", .bool true)])]

/-- Total number of observed-event entries across all items of a store. -/
def total_observed_entries (st : Store) : Nat :=
  (st.map (fun it => (asList (item_getD it "observedEvents" (.arr []))).length)).sum

/-- RunMeta for run `r1` (C7 environments). -/
def c7_meta : Item :=
  [("pk", .str "run#r1"), ("sk", .str "run#meta"), ("runId", .str "r1"),
   ("serviceName", .str "all"), ("observedCount", .num 0), ("status", .str "running")]

/-- Expectation item for run `r1` (C7 environments). -/
def c7_exp : Item :=
  [("pk", .str "run#r1"), ("sk", .str "expectation#001"),
   ("expected", .obj [("detailType", .str "Started")])]

/-- Collector environment for run `r1`, all writes succeeding. -/
def c7_env : Collector.Env :=
  { store := [c7_exp, c7_meta], s3_put_ok := true, update_ok := true, inc_ok := true,
    now_iso := "2026-10-12T00:01:00Z", date_yyyy := "2026", date_mm := "10",
    date_dd := "12", date_ts := "2026-10-12T00-01-00Z", hash := fun _ => "h" }

/-- First delivered event (id `e1`). -/
def c7_event1 : JVal :=
  .obj [("id", .str "e1"), ("source", .str "svc.a"), ("detail-type", .str "Started"),
    ("detail", .obj [("testRunId", .str "r1"), ("testMode", .bool true)])]

/-- Second, distinct delivered event (id `e2`), same detail type. -/
def c7_event2 : JVal :=
  .obj [("id", .str "e2"), ("source", .str "svc.a"), ("detail-type", .str "Started"),
    ("detail", .obj [("testRunId", .str "r1"), ("testMode", .bool true)])]

/-- The table after the first collector invocation. -/
def c7_after1 : Store :=
  match Collector.handler c7_env c7_event1 with
  | .ok p => p.1
  | .error _ => []

/-- The collector environment seeing the table after the first event. -/
def c7_env2 : Collector.Env :=
  { c7_env with store := c7_after1 }

/-- The table after both collector invocations. -/
def c7_after2 : Store :=
  match Collector.handler c7_env2 c7_event2 with
  | .ok p => p.1
  | .error _ => []

/-- RunMeta for run `r1` (C1 environment). -/
def c1_meta : Item :=
  [("pk", .str "run#r1"), ("sk", .str "run#meta"), ("runId", .str "r1"),
   ("serviceName", .str "all"), ("observedCount", .num 0), ("status", .str "running")]

/-- Expectation item for run `r1` (C1 environment). -/
def c1_exp : Item :=
  [("pk", .str "run#r1"), ("sk", .str "expectation#001"),
   ("expected", .obj [("detailType", .str "Started")])]

/-- Collector environment for run `r1`, all writes succeeding. -/
def c1_env : Collector.Env :=
  { store := [c1_exp, c1_meta], s3_put_ok := true, update_ok := true, inc_ok := true,
    now_iso := "2026-10-12T00:01:00Z", date_yyyy := "2026", date_mm := "10",
    date_dd := "12", date_ts := "2026-10-12T00-01-00Z", hash := fun _ => "h" }

/-- A fully accepted test envelope for run `r1`. -/
def c1_event : JVal :=
  .obj [("id", .str "e1"), ("source", .str "svc.a"), ("detail-type", .str "Started"),
    ("detail", .obj [("testRunId", .str "r1"), ("testMode", .bool true)])]

/-- RunMeta for run `r1`, already ready (C4 environment). -/
def c4_meta : Item :=
  [("pk", .str "run#r1"), ("sk", .str "run#meta"), ("serviceName", .str "all"),
   ("status", .str "ready")]

/-- One observed event row with an archived body (C4 environment). -/
def c4_event_item : Item :=
  [("pk", .str "run#r1"), ("sk", .str "event#0001-e1"), ("detailType", .str "Started"),
   ("source", .str "svc.a"), ("rawS3Key", .str "k1"), ("status", .str "new")]

/-- Verifier environment: one expectation matched by one archived event. -/
def c4_env : Verifier.Env :=
  { store := [c4_event_item, c4_meta],
    bucket := [("seed/services/all/expectations.json",
      .arr [.obj [("source", .str "svc.a"), ("detail-type", .str "Started"),
        ("__match", .obj [("fields", .arr [.str "detail.jobId"])]),
        ("detail", .obj [("jobId", .str "J1")])]]),
      ("k1", .obj [("id", .str "e1"), ("source", .str "svc.a"),
        ("detail-type", .str "Started"), ("detail", .obj [("jobId", .str "J1")])])],
    now_iso := "2026-10-12T00:20:00Z", now := 0, parse_iso := fun _ => none }

/-- Output of the C4 verify invocation. -/
def c4_out : Store × JVal :=
  match Verifier.verify_mode c4_env (.str "r1") with
  | .ok p => p
  | .error _ => ([], .null)

/-- A well-formed expectation with no discriminating match fields. -/
def c3_expectation : JVal :=
  .obj [("source", .str "svc.a"), ("detail-type", .str "Started"),
    ("__match", .obj [("fields", .arr [])])]

/-- One observed event row with an archived body (C3 environment). -/
def c3_event_item : Item :=
  [("pk", .str "run#r1"), ("sk", .str "event#0001-e1"), ("detailType", .str "Started"),
   ("source", .str "svc.a"), ("rawS3Key", .str "k1"), ("status", .str "new")]

/-- RunMeta for run `r1`, already ready (C3 environment). -/
def c3_meta : Item :=
  [("pk", .str "run#r1"), ("sk", .str "run#meta"), ("serviceName", .str "all"),
   ("status", .str "ready")]

/-- Verifier environment: two identical well-formed expectations, a single
observed event. -/
def c3_env : Verifier.Env :=
  { store := [c3_event_item, c3_meta],
    bucket := [("seed/services/all/expectations.json",
      .arr [c3_expectation, c3_expectation]),
      ("k1", .obj [("id", .str "e1"), ("source", .str "svc.a"),
        ("detail-type", .str "Started"), ("detail", .obj [("jobId", .str "J1")])])],
    now_iso := "2026-10-12T00:20:00Z", now := 0, parse_iso := fun _ => none }

/-- Output of the C3 verify invocation. -/
def c3_out : Store × JVal :=
  match Verifier.verify_mode c3_env (.str "r1") with
  | .ok p => p
  | .error _ => ([], .null)

/-- RunMeta for run `r2` with no observed events (C3 witness). -/
def c3w_meta : Item :=
  [("pk", .str "run#r2"), ("sk", .str "run#meta"), ("serviceName", .str "all"),
   ("status", .str "timeout")]

/-- Verifier environment whose single expectation finds no match. -/
def c3w_env : Verifier.Env :=
  { store := [c3w_meta],
    bucket := [("seed/services/all/expectations.json", .arr [c3_expectation])],
    now_iso := "2026-10-12T00:20:00Z", now := 0, parse_iso := fun _ => none }

/-- Output of the C3-witness verify invocation. -/
def c3w_out : Store × JVal :=
  match Verifier.verify_mode c3w_env (.str "r2") with
  | .ok p => p
  | .error _ => ([], .null)

/-- The response of the counterexample invocation. -/
def c5_resp : JVal :=
  .obj [("ignored", .bool true), ("reason", .str "testMode_not_true"),
    ("testRunId", .str "r1")]

/-! ### Lemmas about the store model and the loops -/

theorem find?_map_setAttr_self (k : String) (v : JVal) (l : List (String × JVal))
    (hany : l.any (fun p => p.1 == k) = true) :
    (l.map (fun p => if p.1 == k then (k, v) else p)).find? (fun p => p.1 == k)
      = some (k, v) := by
  induction l with
  | nil => simp at hany
  | cons p rest ih =>
    rw [List.map_cons]
    by_cases hp : (p.1 == k) = true
    · rw [if_pos hp]
      have hkv : (((k, v) : String × JVal).1 == k) = true := by simp
      simp only [List.find?_cons, hkv]
    · rw [if_neg hp]
      have hp' : (p.1 == k) = false := by simpa using hp
      simp only [List.find?_cons, hp']
      apply ih
      simp only [List.any_cons, hp', Bool.false_or] at hany
      exact hany

theorem find?_map_setAttr_ne (k k2 : String) (v : JVal) (h : k2 ≠ k)
    (l : List (String × JVal)) :
    (l.map (fun p => if p.1 == k then (k, v) else p)).find? (fun p => p.1 == k2)
      = l.find? (fun p => p.1 == k2) := by
  induction l with
  | nil => rfl
  | cons p rest ih =>
    rw [List.map_cons]
    by_cases hp : (p.1 == k) = true
    · rw [if_pos hp]
      have hpk : p.1 = k := eq_of_beq hp
      have hne : (p.1 == k2) = false := by
        rw [hpk]; exact beq_eq_false_iff_ne.mpr (Ne.symm h)
      have hne2 : (((k, v) : String × JVal).1 == k2) = false :=
        beq_eq_false_iff_ne.mpr (Ne.symm h)
      simp only [List.find?_cons, hne, hne2, ih]
    · rw [if_neg hp]
      simp only [List.find?_cons, ih]

theorem find?_setAttr_self (it : Item) (k : String) (v : JVal) :
    (setAttr it k v).find? (fun p => p.1 == k) = some (k, v) := by
  unfold setAttr
  by_cases hany : it.any (fun p => p.1 == k) = true
  · rw [if_pos hany]
    exact find?_map_setAttr_self k v it hany
  · rw [if_neg hany, List.find?_append]
    have hnone : it.find? (fun p => p.1 == k) = none := by
      rw [List.find?_eq_none]
      intro x hx hpx
      apply hany
      rw [List.any_eq_true]
      exact ⟨x, hx, hpx⟩
    rw [hnone]
    simp [List.find?_singleton]

theorem find?_setAttr_ne (it : Item) (k k2 : String) (v : JVal) (h : k2 ≠ k) :
    (setAttr it k v).find? (fun p => p.1 == k2) = it.find? (fun p => p.1 == k2) := by
  unfold setAttr
  by_cases hany : it.any (fun p => p.1 == k) = true
  · rw [if_pos hany]
    exact find?_map_setAttr_ne k k2 v h it
  · rw [if_neg hany, List.find?_append]
    have hne2 : (((k, v) : String × JVal).1 == k2) = false :=
      beq_eq_false_iff_ne.mpr (Ne.symm h)
    cases hfind : it.find? (fun p => p.1 == k2) with
    | some p => simp
    | none => simp [List.find?_singleton, hne2]

theorem item_get_setAttr_self (it : Item) (k : String) (v : JVal) :
    item_get (setAttr it k v) k = v := by
  simp [item_get, find?_setAttr_self]

theorem item_get_setAttr_ne (it : Item) (k k2 : String) (v : JVal) (h : k2 ≠ k) :
    item_get (setAttr it k v) k2 = item_get it k2 := by
  simp [item_get, find?_setAttr_ne it k k2 v h]

theorem item_getD_setAttr_self (it : Item) (k : String) (v d : JVal) :
    item_getD (setAttr it k v) k d = v := by
  simp [item_getD, find?_setAttr_self]

theorem pkOf_setAttr (it : Item) (k : String) (v : JVal) (h : k ≠ "pk") :
    pkOf (setAttr it k v) = pkOf it := by
  simp [pkOf, item_get, find?_setAttr_ne it k "pk" v (fun he => h he.symm)]

theorem skOf_setAttr (it : Item) (k : String) (v : JVal) (h : k ≠ "sk") :
    skOf (setAttr it k v) = skOf it := by
  simp [skOf, item_get, find?_setAttr_ne it k "sk" v (fun he => h he.symm)]

theorem keyMatch_iff (it : Item) (p s : String) :
    keyMatch it p s = true ↔ pkOf it = p ∧ skOf it = s := by
  simp [keyMatch, Bool.and_eq_true, beq_iff_eq]

theorem keyMatch_self (it : Item) : keyMatch it (pkOf it) (skOf it) = true := by
  simp [keyMatch]

theorem getItem_some (st : Store) (p s : String) (it : Item)
    (h : getItem st p s = some it) : it ∈ st ∧ pkOf it = p ∧ skOf it = s := by
  have hmem := List.mem_of_find?_eq_some h
  have hp := List.find?_some h
  exact ⟨hmem, (keyMatch_iff it p s).mp hp⟩

theorem find?_map_update_self (q : Item → Bool) (f : Item → Item)
    (hpres : ∀ b, q (f b) = q b) (l : List Item) :
    (l.map (fun b => if q b then f b else b)).find? q = (l.find? q).map f := by
  induction l with
  | nil => rfl
  | cons a rest ih =>
    rw [List.map_cons]
    by_cases hq : q a = true
    · rw [if_pos hq]
      have hfa : q (f a) = true := by rw [hpres a]; exact hq
      simp only [List.find?_cons, hfa, hq]
      rfl
    · rw [if_neg hq]
      have hq' : q a = false := by simpa using hq
      simp only [List.find?_cons, hq', ih]

theorem find?_map_update_ne (q q2 : Item → Bool) (f : Item → Item)
    (hdisj : ∀ b, q b = true → q2 b = false ∧ q2 (f b) = false) (l : List Item) :
    (l.map (fun b => if q b then f b else b)).find? q2 = l.find? q2 := by
  induction l with
  | nil => rfl
  | cons a rest ih =>
    rw [List.map_cons]
    by_cases hq : q a = true
    · rw [if_pos hq]
      obtain ⟨h2a, h2fa⟩ := hdisj a hq
      simp only [List.find?_cons, h2a, h2fa, ih]
    · rw [if_neg hq]
      simp only [List.find?_cons, ih]

theorem getItem_updateItem_self (st : Store) (p s : String) (f : Item → Item)
    (hpk : ∀ it, pkOf (f it) = pkOf it) (hsk : ∀ it, skOf (f it) = skOf it) :
    getItem (updateItem st p s f) p s = (getItem st p s).map f := by
  unfold getItem updateItem
  apply find?_map_update_self
  intro b
  simp [keyMatch, hpk b, hsk b]

theorem getItem_updateItem_ne (st : Store) (p s p2 s2 : String) (f : Item → Item)
    (hpk : ∀ it, pkOf (f it) = pkOf it) (hsk : ∀ it, skOf (f it) = skOf it)
    (hne : p2 ≠ p ∨ s2 ≠ s) :
    getItem (updateItem st p s f) p2 s2 = getItem st p2 s2 := by
  unfold getItem updateItem
  apply find?_map_update_ne
  intro b hb
  obtain ⟨hbp, hbs⟩ := (keyMatch_iff b p s).mp hb
  have hfalse : keyMatch b p2 s2 = false := by
    rcases hne with hne | hne
    · have : (pkOf b == p2) = false := by
        rw [hbp]; exact beq_eq_false_iff_ne.mpr (Ne.symm hne)
      simp [keyMatch, this]
    · have : (skOf b == s2) = false := by
        rw [hbs]; exact beq_eq_false_iff_ne.mpr (Ne.symm hne)
      simp [keyMatch, this]
  constructor
  · exact hfalse
  · rw [show keyMatch (f b) p2 s2 = keyMatch b p2 s2 by simp [keyMatch, hpk b, hsk b]]
    exact hfalse

theorem find?_map_replace_self (q : Item → Bool) (c : Item) (hc : q c = true)
    (l : List Item) (hany : l.any q = true) :
    (l.map (fun b => if q b then c else b)).find? q = some c := by
  induction l with
  | nil => simp at hany
  | cons a rest ih =>
    rw [List.map_cons]
    by_cases hq : q a = true
    · rw [if_pos hq]
      simp only [List.find?_cons, hc]
    · rw [if_neg hq]
      have hq' : q a = false := by simpa using hq
      simp only [List.find?_cons, hq']
      apply ih
      simp only [List.any_cons, hq', Bool.false_or] at hany
      exact hany

theorem getItem_putItem_self (st : Store) (it : Item) :
    getItem (putItem st it) (pkOf it) (skOf it) = some it := by
  unfold putItem
  by_cases hany : st.any (fun b => keyMatch b (pkOf it) (skOf it)) = true
  · rw [if_pos hany]
    exact find?_map_replace_self _ it (keyMatch_self it) st hany
  · rw [if_neg hany]
    unfold getItem
    rw [List.find?_append]
    have hnone : st.find? (fun b => keyMatch b (pkOf it) (skOf it)) = none := by
      rw [List.find?_eq_none]
      intro x hx hpx
      apply hany
      rw [List.any_eq_true]
      exact ⟨x, hx, hpx⟩
    rw [hnone]
    simp [List.find?_singleton, keyMatch_self]

theorem getItem_putItem_ne (st : Store) (it : Item) (p2 s2 : String)
    (hne : p2 ≠ pkOf it ∨ s2 ≠ skOf it) :
    getItem (putItem st it) p2 s2 = getItem st p2 s2 := by
  have hkm : keyMatch it p2 s2 = false := by
    rcases hne with h | h
    · simp [keyMatch, beq_eq_false_iff_ne.mpr (Ne.symm h)]
    · simp [keyMatch, beq_eq_false_iff_ne.mpr (Ne.symm h)]
  unfold putItem
  by_cases hany : st.any (fun b => keyMatch b (pkOf it) (skOf it)) = true
  · rw [if_pos hany]
    unfold getItem
    apply find?_map_update_ne (fun b => keyMatch b (pkOf it) (skOf it))
      (fun b => keyMatch b p2 s2) (fun _ => it)
    intro b hb
    obtain ⟨hbp, hbs⟩ := (keyMatch_iff b (pkOf it) (skOf it)).mp hb
    refine ⟨?_, hkm⟩
    rcases hne with h | h
    · have : (pkOf b == p2) = false := by
        rw [hbp]; exact beq_eq_false_iff_ne.mpr (Ne.symm h)
      simp [keyMatch, this]
    · have : (skOf b == s2) = false := by
        rw [hbs]; exact beq_eq_false_iff_ne.mpr (Ne.symm h)
      simp [keyMatch, this]
  · rw [if_neg hany]
    unfold getItem
    rw [List.find?_append]
    cases hfind : st.find? (fun b => keyMatch b p2 s2) with
    | some x => simp
    | none => simp [List.find?_singleton, hkm]

theorem getItem_of_mem_unique (st : Store) (hu : uniqueKeysB st = true)
    (it : Item) (hm : it ∈ st) : getItem st (pkOf it) (skOf it) = some it := by
  induction st with
  | nil => cases hm
  | cons a rest ih =>
    have hu' := hu
    unfold uniqueKeysB at hu'
    rw [Bool.and_eq_true] at hu'
    rcases List.mem_cons.mp hm with rfl | hm'
    · unfold getItem
      simp only [List.find?_cons, keyMatch_self]
    · have hsym : keyMatch a (pkOf it) (skOf it) = false := by
        rw [Bool.eq_false_iff]
        intro htr
        obtain ⟨h1, h2⟩ := (keyMatch_iff _ _ _).mp htr
        have hall := List.all_eq_true.mp hu'.1 it hm'
        have : keyMatch it (pkOf a) (skOf a) = true :=
          (keyMatch_iff _ _ _).mpr ⟨h1.symm, h2.symm⟩
        rw [this] at hall
        simp at hall
      unfold getItem
      simp only [List.find?_cons, hsym]
      exact ih hu'.2 hm'

theorem mem_query_begins_with (st : Store) (p pref : String) (it : Item)
    (h : it ∈ query_begins_with st p pref) :
    it ∈ st ∧ pkOf it = p ∧ pyStartsWith (skOf it) pref = true := by
  unfold query_begins_with at h
  have hf := List.mem_filter.mp h
  have hb := hf.2
  rw [Bool.and_eq_true] at hb
  exact ⟨hf.1, eq_of_beq hb.1, hb.2⟩

theorem event_isPrefixOf_ex_false (L : List Char) :
    List.isPrefixOf "event#".data ('e' :: 'x' :: L) = false := rfl

theorem startsWith_event_ne_run_meta (s : String)
    (h : pyStartsWith s "event#" = true) : s ≠ "run#meta" := by
  intro he
  rw [he] at h
  exact absurd h (by decide)

theorem startsWith_expectation_ne_run_meta (s : String)
    (h : pyStartsWith s "expectation#" = true) : s ≠ "run#meta" := by
  intro he
  rw [he] at h
  exact absurd h (by decide)

theorem missing_sk_not_event (idx : Nat) :
    pyStartsWith (Verifier.missing_sk idx) "event#" = false := by
  unfold pyStartsWith Verifier.missing_sk
  rw [String.data_append, String.data_append]
  have hd : "expectation#".data = 'e' :: 'x' :: "pectation#".data := rfl
  rw [hd]
  simp only [List.cons_append]
  exact event_isPrefixOf_ex_false _

theorem missing_sk_ne_run_meta (idx : Nat) : Verifier.missing_sk idx ≠ "run#meta" := by
  intro h
  have hlen := congrArg String.length h
  unfold Verifier.missing_sk at hlen
  rw [String.length_append, String.length_append] at hlen
  have h12 : "expectation#".length = 12 := rfl
  have h8 : "-missing".length = 8 := rfl
  have h8b : "run#meta".length = 8 := rfl
  rw [h12, h8, h8b] at hlen
  omega

theorem missing_item_pk (rid : String) (dt src e : JVal) (vat : String) (idx : Nat) :
    pkOf (Verifier.missing_item rid dt src e vat idx) = "run#" ++ rid := rfl

theorem missing_item_sk (rid : String) (dt src e : JVal) (vat : String) (idx : Nat) :
    skOf (Verifier.missing_item rid dt src e vat idx) = Verifier.missing_sk idx := rfl

theorem missing_item_status (rid : String) (dt src e : JVal) (vat : String) (idx : Nat) :
    item_get (Verifier.missing_item rid dt src e vat idx) "status" = .str "missed" := rfl

theorem missing_item_verifierAt (rid : String) (dt src e : JVal) (vat : String) (idx : Nat) :
    item_get (Verifier.missing_item rid dt src e vat idx) "verifierAt" = .str vat := rfl

/-- Every item of an `updateItem` result keeps a key present in the input. -/
theorem mem_updateItem_keys (st : Store) (p s : String) (f : Item → Item)
    (hpk : ∀ it, pkOf (f it) = pkOf it) (hsk : ∀ it, skOf (f it) = skOf it)
    (it : Item) (h : it ∈ updateItem st p s f) :
    ∃ it0 ∈ st, pkOf it = pkOf it0 ∧ skOf it = skOf it0 := by
  unfold updateItem at h
  obtain ⟨b, hb, heq⟩ := List.mem_map.mp h
  by_cases hkm : keyMatch b p s = true
  · rw [if_pos hkm] at heq
    exact ⟨b, hb, by rw [← heq, hpk b], by rw [← heq, hsk b]⟩
  · rw [if_neg hkm] at heq
    exact ⟨b, hb, by rw [heq], by rw [heq]⟩

theorem pkOf_setAttrs_of_ne (ups : List (String × JVal))
    (h : ∀ p ∈ ups, ¬p.1 = "pk") :
    ∀ it : Item, pkOf (setAttrs it ups) = pkOf it := by
  induction ups with
  | nil => intro it; rfl
  | cons u rest ih =>
    intro it
    unfold setAttrs
    rw [List.foldl_cons]
    have hr := ih (fun p hp => h p (List.mem_cons_of_mem _ hp)) (setAttr it u.1 u.2)
    unfold setAttrs at hr
    rw [hr, pkOf_setAttr _ _ _ (h u (List.mem_cons_self _ _))]

theorem skOf_setAttrs_of_ne (ups : List (String × JVal))
    (h : ∀ p ∈ ups, ¬p.1 = "sk") :
    ∀ it : Item, skOf (setAttrs it ups) = skOf it := by
  induction ups with
  | nil => intro it; rfl
  | cons u rest ih =>
    intro it
    unfold setAttrs
    rw [List.foldl_cons]
    have hr := ih (fun p hp => h p (List.mem_cons_of_mem _ hp)) (setAttr it u.1 u.2)
    unfold setAttrs at hr
    rw [hr, skOf_setAttr _ _ _ (h u (List.mem_cons_self _ _))]

theorem matched_update_pkOf (vat : String) (idx : Nat) (e : JVal) (it : Item) :
    pkOf (Verifier.matched_update vat idx e it) = pkOf it := by
  unfold Verifier.matched_update
  apply pkOf_setAttrs_of_ne
  intro p hp
  simp only [List.mem_cons, List.not_mem_nil, or_false] at hp
  rcases hp with rfl | rfl | rfl | rfl <;> simp

theorem matched_update_skOf (vat : String) (idx : Nat) (e : JVal) (it : Item) :
    skOf (Verifier.matched_update vat idx e it) = skOf it := by
  unfold Verifier.matched_update
  apply skOf_setAttrs_of_ne
  intro p hp
  simp only [List.mem_cons, List.not_mem_nil, or_false] at hp
  rcases hp with rfl | rfl | rfl | rfl <;> simp

theorem unexpected_update_pkOf (vat : String) (it : Item) :
    pkOf (Verifier.unexpected_update vat it) = pkOf it := by
  unfold Verifier.unexpected_update
  apply pkOf_setAttrs_of_ne
  intro p hp
  simp only [List.mem_cons, List.not_mem_nil, or_false] at hp
  rcases hp with rfl | rfl <;> simp

theorem unexpected_update_skOf (vat : String) (it : Item) :
    skOf (Verifier.unexpected_update vat it) = skOf it := by
  unfold Verifier.unexpected_update
  apply skOf_setAttrs_of_ne
  intro p hp
  simp only [List.mem_cons, List.not_mem_nil, or_false] at hp
  rcases hp with rfl | rfl <;> simp

/-- The expectation loop never writes at sort key `run#meta`, so the meta
item is untouched. -/
theorem verify_loop_meta_preserved (bucket : Bucket) (rid vat : String)
    (exps : List JVal) :
    ∀ (st : Store) (idx : Nat) (p : String),
      getItem (Verifier.verify_loop bucket rid vat st idx exps).1 p "run#meta"
        = getItem st p "run#meta" := by
  induction exps with
  | nil => intro st idx p; rfl
  | cons e rest ih =>
    intro st idx p
    rw [Verifier.verify_loop]
    by_cases hwf : pyTruthy (jget e "detail-type") = false ∨ pyTruthy (jget e "source") = false
    · rw [if_pos hwf]
      exact ih st (idx + 1) p
    · rw [if_neg hwf]
      cases hfind : Verifier.find_matching_event bucket e
          ((asList (jgetD (jgetD e "__match" (.obj [])) "fields" (.arr []))).map pyStr)
          (Verifier.get_observed_events st rid (jget e "detail-type") (jget e "source")) with
      | some m =>
        simp only [hfind]
        rw [ih _ (idx + 1) p]
        have hm := List.mem_of_find?_eq_some hfind
        have hq := (mem_query_begins_with st ("run#" ++ rid) "event#" m
          (List.mem_filter.mp hm).1).2.2
        rw [getItem_updateItem_ne]
        · exact fun it => matched_update_pkOf vat idx e it
        · exact fun it => matched_update_skOf vat idx e it
        · exact Or.inr (fun hcontra => startsWith_event_ne_run_meta _ hq hcontra.symm)
      | none =>
        simp only [hfind]
        rw [ih _ (idx + 1) p]
        rw [getItem_putItem_ne]
        rw [missing_item_sk]
        exact Or.inr (fun hcontra => missing_sk_ne_run_meta idx hcontra.symm)

/-- The unexpected pass only updates at `event#` sort keys, so lookups at
other sort keys are unchanged. -/
theorem mark_unexpected_preserved (vat : String) (keys : List (String × String))
    (l : List Item) (hl : ∀ it ∈ l, pyStartsWith (skOf it) "event#" = true) :
    ∀ (st : Store) (p s : String), pyStartsWith s "event#" = false →
      getItem (Verifier.mark_unexpected_loop vat keys l st).1 p s = getItem st p s := by
  induction l with
  | nil => intro st p s _; rfl
  | cons a rest ih =>
    intro st p s hs
    rw [Verifier.mark_unexpected_loop]
    by_cases hk : (pkOf a, skOf a) ∈ keys
    · rw [if_pos hk]
      exact ih (fun it hit => hl it (List.mem_cons_of_mem _ hit)) st p s hs
    · rw [if_neg hk]
      rw [ih (fun it hit => hl it (List.mem_cons_of_mem _ hit)) _ p s hs]
      rw [getItem_updateItem_ne]
      · exact fun it => unexpected_update_pkOf vat it
      · exact fun it => unexpected_update_skOf vat it
      · refine Or.inr (fun hcontra => ?_)
        have htrue := hl a (List.mem_cons_self _ _)
        rw [← hcontra] at htrue
        rw [htrue] at hs
        simp at hs

/-- Later expectation-loop iterations keep a missing record in place (a
colliding re-write would itself be a missing record with this stamp). -/
theorem verify_loop_missedAt_preserved (bucket : Bucket) (rid vat : String)
    (exps : List JVal) :
    ∀ (st : Store) (idx : Nat) (p : String) (i : Nat),
      missedAt st p (Verifier.missing_sk i) vat →
      missedAt (Verifier.verify_loop bucket rid vat st idx exps).1 p
        (Verifier.missing_sk i) vat := by
  induction exps with
  | nil => intro st idx p i h; exact h
  | cons e rest ih =>
    intro st idx p i h
    rw [Verifier.verify_loop]
    by_cases hwf : pyTruthy (jget e "detail-type") = false ∨ pyTruthy (jget e "source") = false
    · rw [if_pos hwf]
      exact ih st (idx + 1) p i h
    · rw [if_neg hwf]
      cases hfind : Verifier.find_matching_event bucket e
          ((asList (jgetD (jgetD e "__match" (.obj [])) "fields" (.arr []))).map pyStr)
          (Verifier.get_observed_events st rid (jget e "detail-type") (jget e "source")) with
      | some m =>
        simp only [hfind]
        apply ih _ (idx + 1) p i
        have hm := List.mem_of_find?_eq_some hfind
        have hq := (mem_query_begins_with st ("run#" ++ rid) "event#" m
          (List.mem_filter.mp hm).1).2.2
        obtain ⟨w, hw, hw1, hw2⟩ := h
        refine ⟨w, ?_, hw1, hw2⟩
        rw [getItem_updateItem_ne]
        · exact hw
        · exact fun it => matched_update_pkOf vat idx e it
        · exact fun it => matched_update_skOf vat idx e it
        · refine Or.inr (fun hcontra => ?_)
          rw [← hcontra] at hq
          rw [missing_sk_not_event i] at hq
          simp at hq
      | none =>
        simp only [hfind]
        apply ih _ (idx + 1) p i
        by_cases hkey : ("run#" ++ rid) = p ∧ Verifier.missing_sk idx = Verifier.missing_sk i
        · refine ⟨Verifier.missing_item rid (jget e "detail-type") (jget e "source") e vat idx,
            ?_, missing_item_status rid _ _ e vat idx, missing_item_verifierAt rid _ _ e vat idx⟩
          rw [← hkey.1, ← hkey.2, ← missing_item_pk rid (jget e "detail-type") (jget e "source") e vat idx,
            ← missing_item_sk rid (jget e "detail-type") (jget e "source") e vat idx]
          exact getItem_putItem_self _ _
        · obtain ⟨w, hw, hw1, hw2⟩ := h
          refine ⟨w, ?_, hw1, hw2⟩
          rw [getItem_putItem_ne]
          · exact hw
          · rw [missing_item_pk, missing_item_sk]
            rcases Decidable.not_and_iff_or_not.mp hkey with hx | hx
            · exact Or.inl (fun hcontra => hx hcontra.symm)
            · exact Or.inr (fun hcontra => hx hcontra.symm)

/-- Every `missed` outcome of the expectation loop leaves a missing record
with status `missed` at key `(run#rid, expectation#NNN-missing)`. -/
theorem verify_loop_missed_record (bucket : Bucket) (rid vat : String)
    (exps : List JVal) :
    ∀ (st : Store) (idx i : Nat),
      (Verifier.verify_loop bucket rid vat st idx exps).2.get? i = some .missed →
      missedAt (Verifier.verify_loop bucket rid vat st idx exps).1 ("run#" ++ rid)
        (Verifier.missing_sk (idx + i)) vat := by
  induction exps with
  | nil =>
    intro st idx i h
    rw [Verifier.verify_loop] at h
    simp at h
  | cons e rest ih =>
    intro st idx i h
    rw [Verifier.verify_loop] at h ⊢
    by_cases hwf : pyTruthy (jget e "detail-type") = false ∨ pyTruthy (jget e "source") = false
    · rw [if_pos hwf] at h ⊢
      cases i with
      | zero => simp at h
      | succ j =>
        rw [show idx + (j + 1) = (idx + 1) + j from by omega]
        exact ih st (idx + 1) j (by simpa using h)
    · rw [if_neg hwf] at h ⊢
      cases hfind : Verifier.find_matching_event bucket e
          ((asList (jgetD (jgetD e "__match" (.obj [])) "fields" (.arr []))).map pyStr)
          (Verifier.get_observed_events st rid (jget e "detail-type") (jget e "source")) with
      | some m =>
        simp only [hfind] at h ⊢
        cases i with
        | zero => simp at h
        | succ j =>
          rw [show idx + (j + 1) = (idx + 1) + j from by omega]
          exact ih _ (idx + 1) j (by simpa using h)
      | none =>
        simp only [hfind] at h ⊢
        cases i with
        | zero =>
          rw [show idx + 0 = idx from by omega]
          apply verify_loop_missedAt_preserved
          refine ⟨Verifier.missing_item rid (jget e "detail-type") (jget e "source") e vat idx,
            ?_, missing_item_status rid _ _ e vat idx, missing_item_verifierAt rid _ _ e vat idx⟩
          rw [← missing_item_pk rid (jget e "detail-type") (jget e "source") e vat idx,
            ← missing_item_sk rid (jget e "detail-type") (jget e "source") e vat idx]
          exact getItem_putItem_self _ _
        | succ j =>
          rw [show idx + (j + 1) = (idx + 1) + j from by omega]
          exact ih _ (idx + 1) j (by simpa using h)

theorem publish_loop_all_ok (rid svc : String) (evs : List JVal)
    (hkeys : ∀ ev ∈ evs, jhasKey ev "Source" = true ∧ jhasKey ev "DetailType" = true) :
    ∀ idx : Nat,
      Seeder.publish_events_loop none rid svc idx evs =
        ((evs.map (pub_entry rid svc)).intersperse (.sleep 10), .ok evs.length) := by
  induction evs with
  | nil => intro idx; rfl
  | cons ev rest ih =>
    intro idx
    obtain ⟨hS, hD⟩ := hkeys ev (List.mem_cons_self _ _)
    rw [Seeder.publish_events_loop]
    rw [if_neg (by rw [hS]; simp), if_neg (by rw [hD]; simp)]
    rw [if_neg (by simp)]
    rw [ih (fun e he => hkeys e (List.mem_cons_of_mem _ he)) (idx + 1)]
    cases rest with
    | nil => rfl
    | cons b tl =>
      simp only [List.isEmpty_cons, List.map_cons, List.intersperse_cons₂,
        List.length_cons, if_false]
      rfl

theorem item_get_of_getD (it : Item) (k : String) (d v : JVal)
    (h : item_getD it k d = v) (hne : v ≠ d) : item_get it k = v := by
  unfold item_getD at h
  unfold item_get
  cases hf : it.find? (fun p => p.1 == k) with
  | some p =>
    rw [hf] at h
    simp only [] at h
    simp [hf, h]
  | none =>
    rw [hf] at h
    exact absurd h.symm hne

theorem find_exp_loop_mem (dt : JVal) :
    ∀ (l : List Item) (chosen : Option Item) (it : Item),
      Collector.find_exp_loop dt l chosen = some it → it ∈ l ∨ chosen = some it := by
  intro l
  induction l with
  | nil => intro chosen it h; exact Or.inr h
  | cons a rest ih =>
    intro chosen it h
    simp only [Collector.find_exp_loop] at h
    by_cases hdt : (jget (pyOr (item_getD a "expected" (.obj [])) (.obj [])) "detailType" == dt) = false
    · rw [if_pos hdt] at h
      rcases ih chosen it h with hm | hc
      · exact Or.inl (List.mem_cons_of_mem _ hm)
      · exact Or.inr hc
    · rw [if_neg hdt] at h
      by_cases hobs : pyTruthy (pyOr (item_get a "observedEvents") (.arr [])) = false
      · rw [if_pos hobs] at h
        exact Or.inl (by rw [← Option.some.inj h]; exact List.mem_cons_self _ _)
      · rw [if_neg hobs] at h
        cases chosen with
        | none =>
          rcases ih (some a) it h with hm | hc
          · exact Or.inl (List.mem_cons_of_mem _ hm)
          · exact Or.inl (by rw [← Option.some.inj hc]; exact List.mem_cons_self _ _)
        | some c =>
          rcases ih (some c) it h with hm | hc
          · exact Or.inl (List.mem_cons_of_mem _ hm)
          · exact Or.inr hc

theorem find_expectation_mem (st : Store) (rid : String) (dt : JVal) (e : Item)
    (h : Collector.find_expectation_for_event st rid dt = some e) :
    e ∈ query_begins_with st ("run#" ++ rid) "expectation#" := by
  unfold Collector.find_expectation_for_event at h
  rcases find_exp_loop_mem dt _ none e h with hm | hc
  · exact hm
  · exact Option.noConfusion hc

theorem jget_verify_result_runStatus (t : JVal) (rs : String) (mc ms uc te : Nat) :
    jget (Verifier.verify_result t rs mc ms uc te) "runStatus" = .str rs := rfl

theorem jget_verify_result_missing (t : JVal) (rs : String) (mc ms uc te : Nat) :
    jget (Verifier.verify_result t rs mc ms uc te) "missingCount" = .num ms := rfl

theorem jget_verify_result_unexpected (t : JVal) (rs : String) (mc ms uc te : Nat) :
    jget (Verifier.verify_result t rs mc ms uc te) "unexpectedCount" = .num uc := rfl

theorem jget_verify_result_matched (t : JVal) (rs : String) (mc ms uc te : Nat) :
    jget (Verifier.verify_result t rs mc ms uc te) "matchedCount" = .num mc := rfl

theorem num_nat_ne_zero_iff (n : Nat) : (JVal.num (n : Int) ≠ .num 0) ↔ 0 < n := by
  constructor
  · intro h
    rcases Nat.eq_zero_or_pos n with h0 | h0
    · subst h0
      exact absurd rfl h
    · exact h0
  · intro h hc
    have := JVal.num.inj hc
    omega


/-- Every well-formed expectation is either matched or missed; the counters
add up to the number of well-formed expectations. -/
theorem verify_loop_counts (bucket : Bucket) (rid vat : String) (exps : List JVal) :
    ∀ (st : Store) (idx : Nat),
      Verifier.count_matched (Verifier.verify_loop bucket rid vat st idx exps).2 +
        Verifier.count_missed (Verifier.verify_loop bucket rid vat st idx exps).2 =
        (exps.filter expectation_wf).length := by
  induction exps with
  | nil => intro st idx; rfl
  | cons e rest ih =>
    intro st idx
    rw [Verifier.verify_loop]
    by_cases hwf : pyTruthy (jget e "detail-type") = false ∨ pyTruthy (jget e "source") = false
    · rw [if_pos hwf]
      have hwfe : expectation_wf e = false := by
        unfold expectation_wf
        rcases hwf with hx | hx <;> simp [hx]
      have hih := ih st (idx + 1)
      unfold Verifier.count_matched Verifier.count_missed at hih ⊢
      simp [List.countP_cons, List.filter_cons, hwfe]
      omega
    · rw [if_neg hwf]
      have hwfe : expectation_wf e = true := by
        unfold expectation_wf
        rw [Bool.and_eq_true]
        constructor
        · cases hdt : pyTruthy (jget e "detail-type") with
          | true => rfl
          | false => exact absurd (Or.inl hdt) hwf
        · cases hsrc : pyTruthy (jget e "source") with
          | true => rfl
          | false => exact absurd (Or.inr hsrc) hwf
      rw [List.filter_cons, hwfe]
      simp only [if_true]
      cases hfind : Verifier.find_matching_event bucket e
          ((asList (jgetD (jgetD e "__match" (.obj [])) "fields" (.arr []))).map pyStr)
          (Verifier.get_observed_events st rid (jget e "detail-type") (jget e "source")) with
      | some m =>
        simp only [hfind]
        have hih := ih (updateItem st (pkOf m) (skOf m)
          (Verifier.matched_update vat idx e)) (idx + 1)
        unfold Verifier.count_matched Verifier.count_missed at hih ⊢
        simp [List.countP_cons]
        omega
      | none =>
        simp only [hfind]
        have hih := ih (putItem st
          (Verifier.missing_item rid (jget e "detail-type") (jget e "source") e vat idx)) (idx + 1)
        unfold Verifier.count_matched Verifier.count_missed at hih ⊢
        simp [List.countP_cons]
        omega

theorem publish_loop_fail_at (rid svc : String) (evs : List JVal)
    (hkeys : ∀ ev ∈ evs, jhasKey ev "Source" = true ∧ jhasKey ev "DetailType" = true) :
    ∀ (idx i : Nat), i < evs.length →
      (Seeder.publish_events_loop (some (idx + i)) rid svc idx evs).2 =
        .error (.runtimeError "One or more events failed to publish")
      ∧ ((Seeder.publish_events_loop (some (idx + i)) rid svc idx evs).1.filter
          is_publish).length = i + 1 := by
  induction evs with
  | nil => intro idx i hi; simp at hi
  | cons ev rest ih =>
    intro idx i hi
    obtain ⟨hS, hD⟩ := hkeys ev (List.mem_cons_self _ _)
    rw [Seeder.publish_events_loop]
    rw [if_neg (by rw [hS]; simp), if_neg (by rw [hD]; simp)]
    cases i with
    | zero =>
      rw [if_pos (by rw [Nat.add_zero])]
      constructor
      · rfl
      · simp [is_publish, List.filter]
    | succ j =>
      rw [if_neg (by intro hc; have := Option.some.inj hc; omega)]
      have hrec := ih (fun e he => hkeys e (List.mem_cons_of_mem _ he)) (idx + 1) j
        (by simpa using Nat.lt_of_succ_lt_succ (by simpa using hi))
      rw [show idx + (j + 1) = (idx + 1) + j from by omega]
      constructor
      · simp only []
        rw [hrec.1]
        rfl
      · have h2 := hrec.2
        have hpub : is_publish (Seeder.PubAction.publish (jget ev "Source") (jget ev "DetailType")
            (Seeder.inject_tracing (jgetD ev "Detail" (JVal.obj [])) rid svc)) = true := rfl
        have hslp : is_publish (Seeder.PubAction.sleep 10) = false := rfl
        have h0 : (List.filter is_publish [Seeder.PubAction.sleep 10]).length = 0 := rfl
        simp only [List.filter_cons, List.filter_append, hpub, hslp]
        cases hre : rest.isEmpty <;> simp [hre, h0] <;> omega

/-! ### The claims -/

/-- C8, counterexample: on a two-event scenario the seeder publishes both
events successfully but the pause between them is `time.sleep(10)` — there
is no 1-second pause anywhere, refuting "pausing 1 second between
consecutive publishes". -/
theorem claim_c8_counterexample :
    Seeder.PubAction.sleep 10 ∈ (Seeder.publish_test_events none "it-u" "all" c8_events).1
    ∧ Seeder.PubAction.sleep 1 ∉ (Seeder.publish_test_events none "it-u" "all" c8_events).1
    ∧ (Seeder.publish_test_events none "it-u" "all" c8_events).2 = .ok 2 := by
  refine ⟨by decide, by decide, rfl⟩

/-- C8, amended: the Seeder publishes the scenario events to the bus in
their declared order, pausing 10 seconds (not 1 second) between
consecutive publishes, and a failing entry is fatal: the invocation raises
`RuntimeError` and events after the failing one are not published (exactly
`i + 1` publish calls happen when call `i` fails). -/
theorem claim_c8_amended (rid svc : String) (evs : List JVal)
    (hkeys : ∀ ev ∈ evs, jhasKey ev "Source" = true ∧ jhasKey ev "DetailType" = true) :
    (Seeder.publish_test_events none rid svc evs).1
        = (evs.map (pub_entry rid svc)).intersperse (.sleep 10)
    ∧ (Seeder.publish_test_events none rid svc evs).2 = .ok evs.length
    ∧ ∀ i < evs.length,
        (Seeder.publish_test_events (some i) rid svc evs).2 =
          .error (.runtimeError "One or more events failed to publish")
        ∧ ((Seeder.publish_test_events (some i) rid svc evs).1.filter is_publish).length
            = i + 1 := by
  refine ⟨?_, ?_, ?_⟩
  · unfold Seeder.publish_test_events
    rw [publish_loop_all_ok rid svc evs hkeys 0]
  · unfold Seeder.publish_test_events
    rw [publish_loop_all_ok rid svc evs hkeys 0]
  · intro i hi
    unfold Seeder.publish_test_events
    have hfa := publish_loop_fail_at rid svc evs hkeys 0 i hi
    rw [show (0 : Nat) + i = i from by omega] at hfa
    exact hfa

/-- C8, witness for the amended theorem at the two-event scenario. -/
theorem claim_c8_amended_witness :
    (∀ ev ∈ c8_events, jhasKey ev "Source" = true ∧ jhasKey ev "DetailType" = true)
    ∧ (Seeder.publish_test_events none "r" "all" c8_events).1
        = (c8_events.map (pub_entry "r" "all")).intersperse (.sleep 10) :=
  ⟨by decide, (claim_c8_amended "r" "all" c8_events (by decide)).1⟩

/-- C10: whenever the run id resolves and the `mode` attribute of the input is
anything other than the exact string `"status"` — absent (null), null, the
empty string, any other string, or a non-string — the verifier handler runs
the mutating verify mode. -/
theorem claim_c10_mode_fallback (env : Verifier.Env) (event : JVal)
    (hid : pyTruthy (Verifier.resolve_run_id event) = true)
    (hmode : jget event "mode" ≠ JVal.str "status") :
    Verifier.handler env event = Verifier.verify_mode env (Verifier.resolve_run_id event) := by
  unfold Verifier.handler
  rw [if_neg (by rw [hid]; simp)]
  rw [if_neg ?hm]
  case hm =>
    intro hc
    unfold pyOr at hc
    by_cases ht : pyTruthy (jget event "mode") = true
    · rw [if_pos ht] at hc
      exact hmode hc
    · rw [if_neg ht] at hc
      exact JVal.noConfusion hc (fun h => by simp at h)

/-- C10, witness: an input with a runId and no mode dispatches to verify. -/
theorem claim_c10_mode_fallback_witness :
    pyTruthy (Verifier.resolve_run_id c10_event) = true
    ∧ c10_event ≠ JVal.null
    ∧ Verifier.handler c10_env c10_event
        = Verifier.verify_mode c10_env (Verifier.resolve_run_id c10_event) :=
  ⟨by decide, by decide,
    claim_c10_mode_fallback c10_env c10_event (by decide) (by decide)⟩

/-- C2: the seeder handler crashes before writing RunMeta.  After loading
the scenario, publishing the event and writing the expectation item, it
evaluates `datetime.now(tz=datetime.timezone.utc)` where `datetime` is the
class imported by `from datetime import datetime`; the class has no
`timezone` attribute, so the invocation raises `AttributeError` — no
RunMeta row is ever created and nothing is returned (in particular no
object with a `runId` key). -/
theorem claim_c2_seeder_crash :
    (Seeder.handler c2_env (.obj [])).result = .error (.attributeError "timezone")
    ∧ getItem (Seeder.handler c2_env (.obj [])).store "run#it-00000000" "run#meta" = none
    ∧ (Seeder.handler c2_env (.obj [])).pub_actions ≠ []
    ∧ getItem (Seeder.handler c2_env (.obj [])).store "run#it-00000000" "expectation#001"
        ≠ none := by
  refine ⟨rfl, rfl, by decide, by decide⟩

/-- C5, counterexample: the envelope carries a `testRunId` and its RunMeta
exists, yet the Collector ignores it — a third ignore case the claim does
not allow, the `testMode` guard. -/
theorem claim_c5_counterexample :
    pyTruthy (Collector.test_run_id_of c5_event) = true
    ∧ Collector.get_run_meta c5_env.store (pyStr (Collector.test_run_id_of c5_event)) ≠ none
    ∧ Collector.handler c5_env c5_event =
        .ok (c5_env.store, .obj [("ignored", .bool true),
          ("reason", .str "testMode_not_true"), ("testRunId", .str "r1")]) := by
  refine ⟨by decide, by decide, rfl⟩

/-- C5, amended: the Collector marks an envelope ignored exactly when one
of three guards fires — `detail.testRunId` is falsy, `detail.testMode` is
not truthy, or the RunMeta of the run is absent; when none fires it proceeds
(though it still records nothing when no expectation item matches). -/
theorem claim_c5_amended (env : Collector.Env) (event : JVal) (st : Store) (resp : JVal)
    (h : Collector.handler env event = .ok (st, resp)) :
    jget resp "ignored" = .bool true ↔
      (pyTruthy (Collector.test_run_id_of event) = false
       ∨ pyTruthy (jgetD (Collector.detail_of event) "testMode" (.bool false)) = false
       ∨ Collector.get_run_meta env.store (pyStr (Collector.test_run_id_of event)) = none) := by
  unfold Collector.handler at h
  by_cases h1 : pyTruthy (Collector.test_run_id_of event) = false
  · rw [if_pos h1] at h
    injection h with hpair
    have hresp := (Prod.mk.inj hpair).2
    rw [← hresp]
    exact iff_of_true rfl (Or.inl h1)
  · rw [if_neg h1] at h
    by_cases h2 : pyTruthy (jgetD (Collector.detail_of event) "testMode" (.bool false)) = false
    · rw [if_pos h2] at h
      injection h with hpair
      have hresp := (Prod.mk.inj hpair).2
      rw [← hresp]
      exact iff_of_true rfl (Or.inr (Or.inl h2))
    · rw [if_neg h2] at h
      simp only [] at h
      cases hmeta : Collector.get_run_meta env.store (pyStr (Collector.test_run_id_of event)) with
      | none =>
        rw [hmeta] at h
        injection h with hpair
        have hresp := (Prod.mk.inj hpair).2
        rw [← hresp]
        exact iff_of_true rfl (Or.inr (Or.inr rfl))
      | some m =>
        rw [hmeta] at h
        simp only [] at h
        have hnor : ¬(pyTruthy (Collector.test_run_id_of event) = false
            ∨ pyTruthy (jgetD (Collector.detail_of event) "testMode" (.bool false)) = false
            ∨ (some m : Option Item) = none) := by
          intro hor
          rcases hor with hx | hx | hx
          · exact h1 hx
          · exact h2 hx
          · exact Option.noConfusion hx
        cases hfind : Collector.find_expectation_for_event env.store
            (pyStr (Collector.test_run_id_of event)) (jgetD event "detail-type" (.str "")) with
        | none =>
          rw [hfind] at h
          injection h with hpair
          have hresp := (Prod.mk.inj hpair).2
          rw [← hresp]
          exact iff_of_false (fun hc => JVal.noConfusion hc) hnor
        | some e =>
          rw [hfind] at h
          simp only [] at h
          by_cases hup : env.update_ok = false
          · rw [if_pos hup] at h
            injection h with hpair
            have hresp := (Prod.mk.inj hpair).2
            rw [← hresp]
            exact iff_of_false (fun hc => JVal.noConfusion hc) hnor
          · rw [if_neg hup] at h
            injection h with hpair
            have hresp := (Prod.mk.inj hpair).2
            rw [← hresp]
            exact iff_of_false (fun hc => JVal.noConfusion hc) hnor

/-- C6: in status mode, when the timeout instant has been reached and
simultaneously the ready condition (observed ≥ expected > 0) holds, the
returned status is `timeout` and RunMeta ends at status `timeout`, never
`ready`: the timeout branch is decided strictly before the ready branch. -/
theorem claim_c6_timeout_wins (env : Verifier.Env) (test_run_id : JVal) (m : Item) (t : Int)
    (hmeta : Verifier.get_run_meta env.store (pyStr test_run_id) = some m)
    (hts : pyTruthy (item_get m "timeoutAt") = true)
    (hparse : env.parse_iso (pyStr (item_get m "timeoutAt")) = some t)
    (hnow : t ≤ env.now)
    (_hready1 : Verifier.expected_count_of env.bucket (item_getD m "serviceName" (.str "all"))
        ≤ Verifier.observed_count_of env.store (pyStr test_run_id))
    (_hready2 : 0 < Verifier.expected_count_of env.bucket (item_getD m "serviceName" (.str "all"))) :
    jget (Verifier.status_mode env test_run_id).2 "status" = .str "timeout"
    ∧ jget (Verifier.status_mode env test_run_id).2 "status" ≠ .str "ready"
    ∧ ∃ m', getItem (Verifier.status_mode env test_run_id).1
          ("run#" ++ pyStr test_run_id) "run#meta" = some m'
        ∧ item_get m' "status" = .str "timeout" := by
  have hhit : Verifier.timeout_hit env m = true := by
    unfold Verifier.timeout_hit
    rw [if_pos hts, hparse]
    exact decide_eq_true hnow
  have hget : getItem env.store ("run#" ++ pyStr test_run_id) "run#meta" = some m := hmeta
  obtain ⟨hmem, hpk, hsk⟩ := getItem_some _ _ _ _ hget
  unfold Verifier.status_mode
  simp only []
  rw [show Verifier.get_run_meta env.store (pyStr test_run_id) = some m from hmeta]
  simp only []
  rw [if_pos hhit]
  refine ⟨rfl, by intro hc; exact absurd (JVal.str.inj hc) (by decide), ?_⟩
  by_cases hcur : item_getD m "status" (.str "running") = .str "timeout"
  · rw [if_pos hcur]
    exact ⟨m, hget, item_get_of_getD m "status" (.str "running") (.str "timeout") hcur (by decide)⟩
  · rw [if_neg hcur]
    rw [hpk, hsk]
    rw [getItem_updateItem_self env.store _ _ _
      (fun it => pkOf_setAttr it "status" (.str "timeout") (by decide))
      (fun it => skOf_setAttr it "status" (.str "timeout") (by decide))]
    rw [hget]
    exact ⟨setAttr m "status" (.str "timeout"), rfl,
      item_get_setAttr_self m "status" (.str "timeout")⟩

/-- C6, witness: the tie-break environment satisfies every hypothesis and
returns `timeout`. -/
theorem claim_c6_timeout_wins_witness :
    (Verifier.expected_count_of c6_env.bucket (item_getD c6_meta "serviceName" (.str "all"))
        ≤ Verifier.observed_count_of c6_env.store (pyStr (.str "r1"))
      ∧ 0 < Verifier.expected_count_of c6_env.bucket (item_getD c6_meta "serviceName" (.str "all")))
    ∧ jget (Verifier.status_mode c6_env (.str "r1")).2 "status" = .str "timeout" :=
  ⟨⟨by decide, by decide⟩,
    (claim_c6_timeout_wins c6_env (.str "r1") c6_meta 900 rfl rfl rfl (by decide)
      (by decide) (by decide)).1⟩

/-- C9, counterexample: when the Store write (the expectation
`update_item`) fails, the collector invocation does not raise — it returns
normally with `attached = false`, so the bus sees a successful invocation
and will not redeliver; this refutes "a Store write failure is fatal for
that invocation". -/
theorem claim_c9_counterexample :
    Collector.handler c9_env c9_event =
      .ok (c9_env.store, .obj [("testRunId", .str "r1"), ("attached", .bool false),
        ("error", .str "update_item failed")]) := rfl

/-- C9, amended: an Archive (S3) write failure is non-fatal and the
recorded entry carries `rawS3Key = null`; a Store write failure is equally
non-fatal — the handler catches it and returns `attached = false` without
raising, so the bus does not redeliver. -/
theorem claim_c9_amended (env : Collector.Env) (event : JVal) (m e : Item)
    (h1 : pyTruthy (Collector.test_run_id_of event) = true)
    (h2 : pyTruthy (jgetD (Collector.detail_of event) "testMode" (.bool false)) = true)
    (hmeta : Collector.get_run_meta env.store (pyStr (Collector.test_run_id_of event)) = some m)
    (hfind : Collector.find_expectation_for_event env.store
      (pyStr (Collector.test_run_id_of event)) (jgetD event "detail-type" (.str "")) = some e) :
    (env.update_ok = false →
      Collector.handler env event = .ok (env.store,
        .obj [("testRunId", Collector.test_run_id_of event), ("attached", .bool false),
          ("error", .str "update_item failed")]))
    ∧ (env.update_ok = true → env.s3_put_ok = false →
      jget (Collector.new_observed env event) "rawS3Key" = .null
      ∧ ∃ st resp, Collector.handler env event = .ok (st, resp)
          ∧ jget resp "attached" = .bool true) := by
  have hhandler : Collector.handler env event =
      (if env.update_ok = false then
        Except.ok (env.store, .obj [("testRunId", Collector.test_run_id_of event),
          ("attached", .bool false), ("error", .str "update_item failed")])
      else
        Except.ok
          (if (asList (item_getD e "observedEvents" (.arr []))).isEmpty = true then
            (if env.inc_ok = true then
              updateItem
                (updateItem env.store (pyStr (item_get e "pk")) (pyStr (item_get e "sk"))
                  (Collector.append_observed (Collector.new_observed env event)))
                ("run#" ++ pyStr (Collector.test_run_id_of event)) "run#meta"
                Collector.increment_observed_count
            else
              updateItem env.store (pyStr (item_get e "pk")) (pyStr (item_get e "sk"))
                (Collector.append_observed (Collector.new_observed env event)))
          else
            updateItem env.store (pyStr (item_get e "pk")) (pyStr (item_get e "sk"))
              (Collector.append_observed (Collector.new_observed env event)),
          .obj [("testRunId", Collector.test_run_id_of event),
            ("expectationKey", .obj [("pk", .str (pyStr (item_get e "pk"))),
              ("sk", .str (pyStr (item_get e "sk")))]),
            ("attached", .bool true)])) := by
    unfold Collector.handler
    rw [if_neg (by rw [h1]; simp), if_neg (by rw [h2]; simp)]
    simp only []
    rw [hmeta]
    simp only []
    rw [hfind]
  constructor
  · intro hup
    rw [hhandler, if_pos hup]
  · intro hup hs3
    have hsep : Collector.store_event_payload env (pyStr (Collector.test_run_id_of event))
        (pyStr (jgetD event "id" (.str ""))) = "" := by
      unfold Collector.store_event_payload
      simp only []
      rw [if_neg (by rw [hs3]; simp)]
    constructor
    · have hraw : jget (Collector.new_observed env event) "rawS3Key" =
          pyOr (.str (Collector.store_event_payload env
            (pyStr (Collector.test_run_id_of event))
            (pyStr (jgetD event "id" (.str ""))))) .null := rfl
      rw [hraw, hsep]
      rfl
    · rw [hhandler, if_neg (by rw [hup]; simp)]
      exact ⟨_, _, rfl, rfl⟩

/-- C9, witness: both amended behaviours at concrete environments. -/
theorem claim_c9_amended_witness :
    (Collector.handler c9_env c9_event = .ok (c9_env.store,
      .obj [("testRunId", Collector.test_run_id_of c9_event), ("attached", .bool false),
        ("error", .str "update_item failed")]))
    ∧ jget (Collector.new_observed c9_env_s3fail c9_event) "rawS3Key" = .null :=
  ⟨(claim_c9_amended c9_env c9_event c9_meta c9_exp (by decide) (by decide) rfl rfl).1 rfl,
   ((claim_c9_amended c9_env_s3fail c9_event c9_meta c9_exp (by decide) (by decide)
      rfl rfl).2 rfl rfl).1⟩

/-- C7, counterexample: two distinct events (`e1`, `e2`) are both recorded
for the run, but `observedCount` ends at 1, because the collector
increments only on the first event attached to an expectation — not once
per distinct event; `observedCount` does not equal the number of distinct
recorded observations. -/
theorem claim_c7_counterexample :
    (getItem c7_after2 "run#r1" "run#meta").map (fun m2 => item_get m2 "observedCount")
        = some (.num 1)
    ∧ total_observed_entries c7_after2 = 2
    ∧ (1 : Nat) ≠ 2 :=
  ⟨rfl, rfl, by decide⟩

/-- C7, amended: upon a successful attach, the collector increments
`observedCount` exactly when the matched expectation previously had no
observed events; so `observedCount` tracks the number of expectations with
at least one observation, not the number of distinct events. -/
theorem claim_c7_amended (env : Collector.Env) (event : JVal) (m e : Item)
    (h1 : pyTruthy (Collector.test_run_id_of event) = true)
    (h2 : pyTruthy (jgetD (Collector.detail_of event) "testMode" (.bool false)) = true)
    (hmeta : Collector.get_run_meta env.store (pyStr (Collector.test_run_id_of event)) = some m)
    (hfind : Collector.find_expectation_for_event env.store
      (pyStr (Collector.test_run_id_of event)) (jgetD event "detail-type" (.str "")) = some e)
    (hup : env.update_ok = true) (hinc : env.inc_ok = true) :
    ∃ st resp, Collector.handler env event = .ok (st, resp)
      ∧ (getItem st ("run#" ++ pyStr (Collector.test_run_id_of event)) "run#meta").map
            (fun m2 => asInt (item_getD m2 "observedCount" (.num 0)))
          = some (asInt (item_getD m "observedCount" (.num 0)) +
              (if (asList (item_getD e "observedEvents" (.arr []))).isEmpty then 1 else 0)) := by
  have hq := find_expectation_mem _ _ _ _ hfind
  have hskexp := (mem_query_begins_with _ _ _ _ hq).2.2
  have hskne : skOf e ≠ "run#meta" := startsWith_expectation_ne_run_meta _ hskexp
  have hhandler : Collector.handler env event =
      .ok
        (if (asList (item_getD e "observedEvents" (.arr []))).isEmpty = true then
          (if env.inc_ok = true then
            updateItem
              (updateItem env.store (pyStr (item_get e "pk")) (pyStr (item_get e "sk"))
                (Collector.append_observed (Collector.new_observed env event)))
              ("run#" ++ pyStr (Collector.test_run_id_of event)) "run#meta"
              Collector.increment_observed_count
          else
            updateItem env.store (pyStr (item_get e "pk")) (pyStr (item_get e "sk"))
              (Collector.append_observed (Collector.new_observed env event)))
        else
          updateItem env.store (pyStr (item_get e "pk")) (pyStr (item_get e "sk"))
            (Collector.append_observed (Collector.new_observed env event)),
        .obj [("testRunId", Collector.test_run_id_of event),
          ("expectationKey", .obj [("pk", .str (pyStr (item_get e "pk"))),
            ("sk", .str (pyStr (item_get e "sk")))]),
          ("attached", .bool true)]) := by
    unfold Collector.handler
    rw [if_neg (by rw [h1]; simp), if_neg (by rw [h2]; simp)]
    simp only []
    rw [hmeta]
    simp only []
    rw [hfind]
    simp only []
    rw [if_neg (by rw [hup]; simp)]
  refine ⟨_, _, hhandler, ?_⟩
  have hst1 : getItem (updateItem env.store (pyStr (item_get e "pk")) (pyStr (item_get e "sk"))
      (Collector.append_observed (Collector.new_observed env event)))
      ("run#" ++ pyStr (Collector.test_run_id_of event)) "run#meta" = some m := by
    rw [getItem_updateItem_ne]
    · exact hmeta
    · exact fun it => pkOf_setAttr it "observedEvents" _ (by decide)
    · exact fun it => skOf_setAttr it "observedEvents" _ (by decide)
    · exact Or.inr (fun hc => hskne hc.symm)
  by_cases hfirst : (asList (item_getD e "observedEvents" (.arr []))).isEmpty = true
  · rw [if_pos hfirst, if_pos hinc]
    rw [getItem_updateItem_self]
    · rw [hst1]
      rw [Option.map_some', Option.map_some']
      unfold Collector.increment_observed_count
      rw [item_getD_setAttr_self]
      rw [if_pos hfirst]
      rfl
    · exact fun it => by
        unfold Collector.increment_observed_count
        exact pkOf_setAttr it "observedCount" _ (by decide)
    · exact fun it => by
        unfold Collector.increment_observed_count
        exact skOf_setAttr it "observedCount" _ (by decide)
  · rw [if_neg hfirst]
    rw [hst1]
    rw [Option.map_some']
    rw [if_neg hfirst, Int.add_zero]

/-- C7, witness: the amended count behaviour on the first delivery. -/
theorem claim_c7_amended_witness :
    Collector.get_run_meta c7_env.store (pyStr (Collector.test_run_id_of c7_event1)) = some c7_meta
    ∧ ∃ st resp, Collector.handler c7_env c7_event1 = .ok (st, resp)
      ∧ (getItem st ("run#" ++ pyStr (Collector.test_run_id_of c7_event1)) "run#meta").map
            (fun m2 => asInt (item_getD m2 "observedCount" (.num 0)))
          = some (asInt (item_getD c7_meta "observedCount" (.num 0)) +
              (if (asList (item_getD c7_exp "observedEvents" (.arr []))).isEmpty then 1 else 0)) :=
  ⟨rfl, claim_c7_amended c7_env c7_event1 c7_meta c7_exp (by decide) (by decide) rfl rfl rfl rfl⟩

/-- C1, counterexample: a fully accepted envelope (testRunId, testMode,
RunMeta present) is processed (`attached = true`), yet the resulting table
contains no row whose sort key begins with `event#` — the Collector never
writes an Observation row keyed by timestamp and event id under `event#`. -/
theorem claim_c1_counterexample :
    ∃ st resp, Collector.handler c1_env c1_event = .ok (st, resp)
      ∧ jget resp "attached" = .bool true
      ∧ st.all (fun it => !(pyStartsWith (skOf it) "event#")) = true :=
  ⟨_, _, rfl, rfl, rfl⟩

/-- C1, amended: when the Collector accepts an envelope (truthy testRunId
and testMode, RunMeta present) and finds a matching expectation item, it
adds no new row at all — every key of the output table already existed —
and instead appends one observed-event entry (eventId, detailType,
receivedAt, payloadHash, rawS3Key) to the `observedEvents` list of that expectation item; a redelivered event appends a further distinct
entry rather than creating a distinct row. -/
theorem claim_c1_amended (env : Collector.Env) (event : JVal) (m e : Item)
    (huniq : uniqueKeysB env.store = true)
    (h1 : pyTruthy (Collector.test_run_id_of event) = true)
    (h2 : pyTruthy (jgetD (Collector.detail_of event) "testMode" (.bool false)) = true)
    (hmeta : Collector.get_run_meta env.store (pyStr (Collector.test_run_id_of event)) = some m)
    (hfind : Collector.find_expectation_for_event env.store
      (pyStr (Collector.test_run_id_of event)) (jgetD event "detail-type" (.str "")) = some e)
    (hup : env.update_ok = true) :
    ∃ st resp, Collector.handler env event = .ok (st, resp)
      ∧ (∀ it ∈ st, ∃ it0 ∈ env.store, pkOf it = pkOf it0 ∧ skOf it = skOf it0)
      ∧ (∃ it2, getItem st (pkOf e) (skOf e) = some it2
          ∧ item_getD it2 "observedEvents" (.arr [])
            = .arr (asList (item_getD e "observedEvents" (.arr []))
                ++ [Collector.new_observed env event]))
      ∧ jget resp "attached" = .bool true := by
  have hq := find_expectation_mem _ _ _ _ hfind
  obtain ⟨hmem, hpkq, hskq⟩ := mem_query_begins_with _ _ _ _ hq
  have hskne : skOf e ≠ "run#meta" := startsWith_expectation_ne_run_meta _ hskq
  have hpk_app : ∀ it, pkOf (Collector.append_observed (Collector.new_observed env event) it)
      = pkOf it := fun it => by
    unfold Collector.append_observed
    exact pkOf_setAttr it "observedEvents" _ (by decide)
  have hsk_app : ∀ it, skOf (Collector.append_observed (Collector.new_observed env event) it)
      = skOf it := fun it => by
    unfold Collector.append_observed
    exact skOf_setAttr it "observedEvents" _ (by decide)
  have hpk_inc : ∀ it, pkOf (Collector.increment_observed_count it) = pkOf it := fun it => by
    unfold Collector.increment_observed_count
    exact pkOf_setAttr it "observedCount" _ (by decide)
  have hsk_inc : ∀ it, skOf (Collector.increment_observed_count it) = skOf it := fun it => by
    unfold Collector.increment_observed_count
    exact skOf_setAttr it "observedCount" _ (by decide)
  have hhandler : Collector.handler env event =
      .ok
        (if (asList (item_getD e "observedEvents" (.arr []))).isEmpty = true then
          (if env.inc_ok = true then
            updateItem
              (updateItem env.store (pyStr (item_get e "pk")) (pyStr (item_get e "sk"))
                (Collector.append_observed (Collector.new_observed env event)))
              ("run#" ++ pyStr (Collector.test_run_id_of event)) "run#meta"
              Collector.increment_observed_count
          else
            updateItem env.store (pyStr (item_get e "pk")) (pyStr (item_get e "sk"))
              (Collector.append_observed (Collector.new_observed env event)))
        else
          updateItem env.store (pyStr (item_get e "pk")) (pyStr (item_get e "sk"))
            (Collector.append_observed (Collector.new_observed env event)),
        .obj [("testRunId", Collector.test_run_id_of event),
          ("expectationKey", .obj [("pk", .str (pyStr (item_get e "pk"))),
            ("sk", .str (pyStr (item_get e "sk")))]),
          ("attached", .bool true)]) := by
    unfold Collector.handler
    rw [if_neg (by rw [h1]; simp), if_neg (by rw [h2]; simp)]
    simp only []
    rw [hmeta]
    simp only []
    rw [hfind]
    simp only []
    rw [if_neg (by rw [hup]; simp)]
  refine ⟨_, _, hhandler, ?_, ?_, rfl⟩
  · intro it hit
    by_cases hfirst : (asList (item_getD e "observedEvents" (.arr []))).isEmpty = true
    · rw [if_pos hfirst] at hit
      by_cases hinc2 : env.inc_ok = true
      · rw [if_pos hinc2] at hit
        obtain ⟨it1, hit1, hk1, hk2⟩ := mem_updateItem_keys _ _ _ _ hpk_inc hsk_inc it hit
        obtain ⟨it0, hit0, hk3, hk4⟩ := mem_updateItem_keys _ _ _ _ hpk_app hsk_app it1 hit1
        exact ⟨it0, hit0, by rw [hk1, hk3], by rw [hk2, hk4]⟩
      · rw [if_neg hinc2] at hit
        exact mem_updateItem_keys _ _ _ _ hpk_app hsk_app it hit
    · rw [if_neg hfirst] at hit
      exact mem_updateItem_keys _ _ _ _ hpk_app hsk_app it hit
  · have hbase : getItem (updateItem env.store (pyStr (item_get e "pk"))
        (pyStr (item_get e "sk")) (Collector.append_observed (Collector.new_observed env event)))
        (pkOf e) (skOf e)
        = some (Collector.append_observed (Collector.new_observed env event) e) := by
      have hg : getItem env.store (pkOf e) (skOf e) = some e :=
        getItem_of_mem_unique env.store huniq e hmem
      rw [show pyStr (item_get e "pk") = pkOf e from rfl,
        show pyStr (item_get e "sk") = skOf e from rfl]
      rw [getItem_updateItem_self _ _ _ _ hpk_app hsk_app]
      rw [hg]
      rfl
    have happ : item_getD (Collector.append_observed (Collector.new_observed env event) e)
        "observedEvents" (.arr [])
        = .arr (asList (item_getD e "observedEvents" (.arr []))
            ++ [Collector.new_observed env event]) := by
      unfold Collector.append_observed
      rw [item_getD_setAttr_self]
    by_cases hfirst : (asList (item_getD e "observedEvents" (.arr []))).isEmpty = true
    · rw [if_pos hfirst]
      by_cases hinc2 : env.inc_ok = true
      · rw [if_pos hinc2]
        rw [getItem_updateItem_ne]
        · exact ⟨_, hbase, happ⟩
        · exact hpk_inc
        · exact hsk_inc
        · exact Or.inr hskne
      · rw [if_neg hinc2]
        exact ⟨_, hbase, happ⟩
    · rw [if_neg hfirst]
      exact ⟨_, hbase, happ⟩

/-- C1, witness for the amended theorem on run `r1`. -/
theorem claim_c1_amended_witness :
    uniqueKeysB c1_env.store = true
    ∧ ∃ st resp, Collector.handler c1_env c1_event = .ok (st, resp)
      ∧ (∀ it ∈ st, ∃ it0 ∈ c1_env.store, pkOf it = pkOf it0 ∧ skOf it = skOf it0)
      ∧ (∃ it2, getItem st (pkOf c1_exp) (skOf c1_exp) = some it2
          ∧ item_getD it2 "observedEvents" (.arr [])
            = .arr (asList (item_getD c1_exp "observedEvents" (.arr []))
                ++ [Collector.new_observed c1_env c1_event]))
      ∧ jget resp "attached" = .bool true :=
  ⟨by decide,
    claim_c1_amended c1_env c1_event c1_meta c1_exp (by decide) (by decide) (by decide)
      rfl rfl rfl⟩

/-- C4: the verify verdict is `failed` exactly when the RunMeta status read
at the start of verify was `timeout`, or the returned missing or unexpected
count is nonzero; otherwise it is `passed`; and RunMeta is updated to the
verdict with `verifiedAt` stamped. -/
theorem claim_c4_verdict (env : Verifier.Env) (test_run_id : JVal) (m : Item)
    (st : Store) (res : JVal)
    (hmeta : Verifier.get_run_meta env.store (pyStr test_run_id) = some m)
    (hok : Verifier.verify_mode env test_run_id = .ok (st, res)) :
    (jget res "runStatus" = .str "failed" ∨ jget res "runStatus" = .str "passed")
    ∧ (jget res "runStatus" = .str "failed" ↔
        (item_getD m "status" (.str "running") = .str "timeout"
         ∨ jget res "missingCount" ≠ .num 0
         ∨ jget res "unexpectedCount" ≠ .num 0))
    ∧ (∃ m2, getItem st ("run#" ++ pyStr test_run_id) "run#meta" = some m2
        ∧ item_get m2 "status" = jget res "runStatus"
        ∧ item_get m2 "verifiedAt" = .str env.now_iso) := by
  obtain ⟨hm_mem, hm_pk, hm_sk⟩ := getItem_some _ _ _ _ hmeta
  unfold Verifier.verify_mode at hok
  simp only [] at hok
  rw [hmeta] at hok
  simp only [] at hok
  cases hload : Verifier.load_s3_json_list env.bucket
      ("seed/services/" ++ pyStr (item_getD m "serviceName" (.str "all")) ++ "/expectations.json") with
  | error er =>
    rw [hload] at hok
    exact absurd hok (by simp)
  | ok exps =>
    rw [hload] at hok
    simp only [] at hok
    injection hok with hp
    obtain ⟨hst, hres⟩ := Prod.mk.inj hp
    subst hst
    subst hres
    refine ⟨?_, ?_, ?_⟩
    · rw [jget_verify_result_runStatus]
      split
      · exact Or.inl rfl
      · split
        · exact Or.inl rfl
        · exact Or.inr rfl
    · rw [jget_verify_result_runStatus, jget_verify_result_missing,
        jget_verify_result_unexpected]
      split
      case isTrue hA => exact iff_of_true rfl (Or.inl hA)
      case isFalse hA =>
        split
        case isTrue hB =>
          refine iff_of_true rfl (Or.inr ?_)
          rcases hB with hB | hB
          · exact Or.inl ((num_nat_ne_zero_iff _).mpr hB)
          · exact Or.inr ((num_nat_ne_zero_iff _).mpr hB)
        case isFalse hB =>
          refine iff_of_false ?_ ?_
          · intro hc
            exact absurd (JVal.str.inj hc) (by decide)
          · intro hor
            rcases hor with hx | hx | hx
            · exact hA hx
            · exact hB (Or.inl ((num_nat_ne_zero_iff _).mp hx))
            · exact hB (Or.inr ((num_nat_ne_zero_iff _).mp hx))
    · rw [jget_verify_result_runStatus]
      have hloop := verify_loop_meta_preserved env.bucket (pyStr test_run_id) env.now_iso
        exps env.store 0 ("run#" ++ pyStr test_run_id)
      have hscan : getItem (Verifier.unexpected_scan (pyStr test_run_id) env.now_iso
          (Verifier.matched_keys (Verifier.verify_loop env.bucket (pyStr test_run_id)
            env.now_iso env.store 0 exps).2)
          (Verifier.verify_loop env.bucket (pyStr test_run_id) env.now_iso env.store 0 exps).1).1
          ("run#" ++ pyStr test_run_id) "run#meta"
          = getItem (Verifier.verify_loop env.bucket (pyStr test_run_id) env.now_iso
            env.store 0 exps).1 ("run#" ++ pyStr test_run_id) "run#meta" := by
        unfold Verifier.unexpected_scan
        apply mark_unexpected_preserved
        · intro it hit
          exact (mem_query_begins_with _ _ _ _ hit).2.2
        · decide
      rw [hm_pk, hm_sk]
      rw [getItem_updateItem_self]
      · rw [hscan, hloop]
        rw [show getItem env.store ("run#" ++ pyStr test_run_id) "run#meta" = some m from hmeta]
        refine ⟨_, rfl, ?_, ?_⟩
        · simp only []
          unfold setAttrs
          rw [List.foldl_cons, List.foldl_cons, List.foldl_nil]
          rw [item_get_setAttr_ne _ _ _ _ (by simp), item_get_setAttr_self]
        · simp only []
          unfold setAttrs
          rw [List.foldl_cons, List.foldl_cons, List.foldl_nil]
          rw [item_get_setAttr_self]
      · intro it
        apply pkOf_setAttrs_of_ne
        intro p hp
        simp only [List.mem_cons, List.not_mem_nil, or_false] at hp
        rcases hp with rfl | rfl <;> simp
      · intro it
        apply skOf_setAttrs_of_ne
        intro p hp
        simp only [List.mem_cons, List.not_mem_nil, or_false] at hp
        rcases hp with rfl | rfl <;> simp

/-- C4, witness: the verdict theorem applied to a concrete passing run. -/
theorem claim_c4_verdict_witness :
    Verifier.verify_mode c4_env (.str "r1") = .ok (c4_out.1, c4_out.2)
    ∧ (jget c4_out.2 "runStatus" = .str "failed" ∨ jget c4_out.2 "runStatus" = .str "passed") :=
  ⟨rfl, (claim_c4_verdict c4_env (.str "r1") c4_meta c4_out.1 c4_out.2 rfl rfl).1⟩

/-- C3, counterexample: two well-formed expectations, one observation.
Verify claims the single observation for BOTH indices (matchedCount 2),
its `expectedOrder` ends at 1, and expectation index 0 is represented by
neither a matched Observation (none carries index 0) nor a MissingRecord
at index 0 — refuting both the exactly-one-per-index property and the
injectivity of the assignment. -/
theorem claim_c3_counterexample :
    expectation_wf c3_expectation = true
    ∧ jget c3_out.2 "totalExpected" = .num 2
    ∧ jget c3_out.2 "matchedCount" = .num 2
    ∧ jget c3_out.2 "missingCount" = .num 0
    ∧ c3_out.1.all (fun it => !(item_get it "status" == .str "matched"
        && item_get it "expectedOrder" == .num 0)) = true
    ∧ getItem c3_out.1 "run#r1" (Verifier.missing_sk 0) = none
    ∧ (∃ it ∈ c3_out.1, item_get it "status" = .str "matched"
        ∧ item_get it "expectedOrder" = .num 1) := by
  refine ⟨rfl, rfl, rfl, rfl, rfl, rfl, by decide⟩

/-- C3, amended: after verify, matchedCount + missingCount equals the
number of well-formed expectations — every well-formed expectation is
either matched to some observation or recorded missing — and every missed
index leaves a MissingRecord (status `missed`, stamped) at
`expectation#NNN-missing`; but matched observations need not be distinct
across indices: an observation already claimed by an earlier expectation
can be claimed again by a later one (see the counterexample), so the
assignment is not injective. -/
theorem claim_c3_amended (env : Verifier.Env) (test_run_id : JVal) (m : Item)
    (exps : List JVal) (st : Store) (res : JVal)
    (hmeta : Verifier.get_run_meta env.store (pyStr test_run_id) = some m)
    (hload : Verifier.load_s3_json_list env.bucket
      ("seed/services/" ++ pyStr (item_getD m "serviceName" (.str "all")) ++ "/expectations.json")
      = .ok exps)
    (hok : Verifier.verify_mode env test_run_id = .ok (st, res)) :
    (∃ mc ms : Nat, jget res "matchedCount" = .num mc ∧ jget res "missingCount" = .num ms
      ∧ mc + ms = (exps.filter expectation_wf).length)
    ∧ (∀ i : Nat,
        (Verifier.verify_loop env.bucket (pyStr test_run_id) env.now_iso env.store 0 exps).2.get? i
          = some .missed →
        ∃ m2, getItem st ("run#" ++ pyStr test_run_id) (Verifier.missing_sk i) = some m2
          ∧ item_get m2 "status" = .str "missed"
          ∧ item_get m2 "verifierAt" = .str env.now_iso) := by
  obtain ⟨hm_mem, hm_pk, hm_sk⟩ := getItem_some _ _ _ _ hmeta
  unfold Verifier.verify_mode at hok
  simp only [] at hok
  rw [hmeta] at hok
  simp only [] at hok
  rw [hload] at hok
  simp only [] at hok
  injection hok with hp
  obtain ⟨hst, hres⟩ := Prod.mk.inj hp
  subst hst
  subst hres
  constructor
  · exact ⟨_, _, jget_verify_result_matched _ _ _ _ _ _,
      jget_verify_result_missing _ _ _ _ _ _,
      verify_loop_counts env.bucket (pyStr test_run_id) env.now_iso exps env.store 0⟩
  · intro i hmiss
    have hm0 := verify_loop_missed_record env.bucket (pyStr test_run_id) env.now_iso
      exps env.store 0 i hmiss
    rw [Nat.zero_add] at hm0
    obtain ⟨m2, hg2, hs2, hv2⟩ := hm0
    refine ⟨m2, ?_, hs2, hv2⟩
    have hscan : getItem (Verifier.unexpected_scan (pyStr test_run_id) env.now_iso
        (Verifier.matched_keys (Verifier.verify_loop env.bucket (pyStr test_run_id)
          env.now_iso env.store 0 exps).2)
        (Verifier.verify_loop env.bucket (pyStr test_run_id) env.now_iso env.store 0 exps).1).1
        ("run#" ++ pyStr test_run_id) (Verifier.missing_sk i)
        = getItem (Verifier.verify_loop env.bucket (pyStr test_run_id) env.now_iso
          env.store 0 exps).1 ("run#" ++ pyStr test_run_id) (Verifier.missing_sk i) := by
      unfold Verifier.unexpected_scan
      apply mark_unexpected_preserved
      · intro it hit
        exact (mem_query_begins_with _ _ _ _ hit).2.2
      · exact missing_sk_not_event i
    rw [getItem_updateItem_ne]
    · rw [hscan]
      exact hg2
    · intro it
      apply pkOf_setAttrs_of_ne
      intro p hp2
      simp only [List.mem_cons, List.not_mem_nil, or_false] at hp2
      rcases hp2 with rfl | rfl <;> simp
    · intro it
      apply skOf_setAttrs_of_ne
      intro p hp2
      simp only [List.mem_cons, List.not_mem_nil, or_false] at hp2
      rcases hp2 with rfl | rfl <;> simp
    · refine Or.inr ?_
      rw [hm_sk]
      exact missing_sk_ne_run_meta i

/-- C3, witness: the amended theorem at a run whose only expectation is
missed — counts add up and the MissingRecord is present. -/
theorem claim_c3_amended_witness :
    (Verifier.verify_loop c3w_env.bucket (pyStr (.str "r2")) c3w_env.now_iso
        c3w_env.store 0 [c3_expectation]).2.get? 0 = some .missed
    ∧ (∃ mc ms : Nat, jget c3w_out.2 "matchedCount" = .num mc
        ∧ jget c3w_out.2 "missingCount" = .num ms
        ∧ mc + ms = ([c3_expectation].filter expectation_wf).length)
    ∧ (∃ m2, getItem c3w_out.1 ("run#" ++ pyStr (.str "r2")) (Verifier.missing_sk 0) = some m2
        ∧ item_get m2 "status" = .str "missed"
        ∧ item_get m2 "verifierAt" = .str c3w_env.now_iso) :=
  ⟨rfl,
   (claim_c3_amended c3w_env (.str "r2") c3w_meta [c3_expectation] c3w_out.1 c3w_out.2
      rfl rfl rfl).1,
   (claim_c3_amended c3w_env (.str "r2") c3w_meta [c3_expectation] c3w_out.1 c3w_out.2
      rfl rfl rfl).2 0 rfl⟩

/-- C5, witness for the amended theorem at the counterexample invocation. -/
theorem claim_c5_amended_witness :
    Collector.handler c5_env c5_event = .ok (c5_env.store, c5_resp)
    ∧ (jget c5_resp "ignored" = .bool true ↔
      (pyTruthy (Collector.test_run_id_of c5_event) = false
       ∨ pyTruthy (jgetD (Collector.detail_of c5_event) "testMode" (.bool false)) = false
       ∨ Collector.get_run_meta c5_env.store (pyStr (Collector.test_run_id_of c5_event)) = none)) :=
  ⟨rfl, claim_c5_amended c5_env c5_event c5_env.store c5_resp rfl⟩

end OrcaBusIT
